import Mathlib

/-!
# Face-recognition attendance engine (index.js)

A shallow embedding of the matching and recognition-loop logic of `index.js`:
`calculateDistance`, `distanceToConfidence`, the store update of `captureFace`,
`isRecentlyMarked`, `markAttendance` and one tick of `recognizeLoop`.

Numbers.  JavaScript numbers are modelled by `JSNum K`: a finite value of an
ordered field `K` with a floor function (the rationals and the reals are
instances), the two infinities, or NaN; signed zeros are not distinguished.
The arithmetic of `calculateDistance` goes through a parameter `m : JSMath K`
that holds the rounding of an exact result to a double (which may overflow to
an infinity) and `Math.sqrt`, so that a distance between vectors of equal
length may be `Infinity` or NaN.  The arithmetic of `distanceToConfidence` on
finite values is exact.  Timestamps (`Date.now()`) are integers.
-/

namespace FaceRecognition

/-! ## JavaScript numbers -/

/-- A JavaScript number: finite, `Infinity`, `-Infinity` or `NaN`. -/
inductive JSNum (K : Type) where
  | fin (x : K)
  | posInf
  | negInf
  | nan
  deriving DecidableEq

namespace JSNum

variable {K : Type} [LinearOrderedField K] [FloorRing K]

/-- The operator `a < b` (false as soon as an operand is NaN). -/
def lt : JSNum K → JSNum K → Bool
  | nan, _ => false
  | _, nan => false
  | fin x, fin y => decide (x < y)
  | fin _, posInf => true
  | fin _, negInf => false
  | posInf, _ => false
  | negInf, negInf => false
  | negInf, _ => true

/-- The operator `a <= b` (false as soon as an operand is NaN). -/
def le : JSNum K → JSNum K → Bool
  | nan, _ => false
  | _, nan => false
  | fin x, fin y => decide (x ≤ y)
  | fin _, posInf => true
  | fin _, negInf => false
  | posInf, posInf => true
  | posInf, _ => false
  | negInf, _ => true

/-- The operator `a >= b`. -/
def ge (a b : JSNum K) : Bool := le b a

/-- The operator `a - b`. -/
def sub : JSNum K → JSNum K → JSNum K
  | nan, _ => nan
  | _, nan => nan
  | fin x, fin y => fin (x - y)
  | fin _, posInf => negInf
  | fin _, negInf => posInf
  | posInf, posInf => nan
  | posInf, _ => posInf
  | negInf, negInf => nan
  | negInf, _ => negInf

/-- The operator `a + b`. -/
def add : JSNum K → JSNum K → JSNum K
  | nan, _ => nan
  | _, nan => nan
  | fin x, fin y => fin (x + y)
  | fin _, posInf => posInf
  | fin _, negInf => negInf
  | posInf, negInf => nan
  | posInf, _ => posInf
  | negInf, posInf => nan
  | negInf, _ => negInf

/-- The sign of an infinite product or quotient: `Infinity` times a finite
factor `x` (NaN when the factor is zero). -/
def infTimes (x : K) : JSNum K :=
  if 0 < x then posInf else if x < 0 then negInf else nan

/-- The negation `-a`. -/
def neg : JSNum K → JSNum K
  | nan => nan
  | fin x => fin (-x)
  | posInf => negInf
  | negInf => posInf

/-- The operator `a * b`. -/
def mul : JSNum K → JSNum K → JSNum K
  | nan, _ => nan
  | _, nan => nan
  | fin x, fin y => fin (x * y)
  | fin x, posInf => infTimes x
  | fin x, negInf => neg (infTimes x)
  | posInf, fin y => infTimes y
  | negInf, fin y => neg (infTimes y)
  | posInf, posInf => posInf
  | posInf, negInf => negInf
  | negInf, posInf => negInf
  | negInf, negInf => posInf

/-- The operator `a / b`.  A finite non-zero value divided by zero is an
infinity of the sign of the dividend; `0 / 0` is NaN. -/
def div : JSNum K → JSNum K → JSNum K
  | nan, _ => nan
  | _, nan => nan
  | fin x, fin y => if y = 0 then infTimes x else fin (x / y)
  | fin _, posInf => fin 0
  | fin _, negInf => fin 0
  | posInf, fin y => if y < 0 then negInf else posInf
  | negInf, fin y => if y < 0 then posInf else negInf
  | posInf, _ => nan
  | negInf, _ => nan

/-- The function `Math.min(a, b)`: NaN if either argument is NaN. -/
def min : JSNum K → JSNum K → JSNum K
  | nan, _ => nan
  | _, nan => nan
  | a, b => if lt b a then b else a

/-- The function `Math.max(a, b)`: NaN if either argument is NaN. -/
def max : JSNum K → JSNum K → JSNum K
  | nan, _ => nan
  | _, nan => nan
  | a, b => if lt a b then b else a

/-- The function `Math.round(a)`: the nearest integer, halves rounded towards
positive infinity, that is `floor(a + 1/2)`; infinities and NaN are unchanged. -/
def round : JSNum K → JSNum K
  | fin x => fin ((⌊x + 1 / 2⌋ : ℤ) : K)
  | a => a

end JSNum

open JSNum

set_option linter.unusedSectionVars false

variable {K : Type} [LinearOrderedField K] [FloorRing K]

/-! ## Distance and confidence -/

/-- The floating-point arithmetic `calculateDistance` runs on: `toDouble x` is
the double an exact result `x` is rounded to, a finite value or an infinity
when it overflows, and `sqrt` is `Math.sqrt` on a finite non-negative double.
Both are library behaviour and are parameters. -/
structure JSMath (K : Type) where
  toDouble : K → JSNum K
  sqrt : K → K

/-- The rounding of the result of an operation: finite results go through
`toDouble`, infinities and NaN are kept. -/
def JSMath.rounded (m : JSMath K) : JSNum K → JSNum K
  | fin x => m.toDouble x
  | a => a

/-- The floating-point operator `a - b`. -/
def JSMath.sub (m : JSMath K) (a b : JSNum K) : JSNum K := m.rounded (JSNum.sub a b)

/-- The floating-point operator `a + b`. -/
def JSMath.add (m : JSMath K) (a b : JSNum K) : JSNum K := m.rounded (JSNum.add a b)

/-- The call `Math.pow(a, 2)`: the rounded square, `Infinity` for both
infinities, NaN for NaN. -/
def JSMath.pow2 (m : JSMath K) : JSNum K → JSNum K
  | fin x => m.toDouble (x ^ 2)
  | posInf => posInf
  | negInf => posInf
  | nan => nan

/-- The call `Math.sqrt(a)`: NaN for NaN and for negative values, `Infinity` for
`Infinity`. -/
def JSMath.sqrtNum (m : JSMath K) : JSNum K → JSNum K
  | fin x => if x < 0 then nan else fin (m.sqrt x)
  | posInf => posInf
  | negInf => nan
  | nan => nan

/-- The loop of `calculateDistance`: `sum += Math.pow(features1[i] - features2[i], 2)`
for `i` from `0` to `features1.length - 1`, started at `sum`. -/
def sumSquares (m : JSMath K) : JSNum K → List (JSNum K) → List (JSNum K) → JSNum K
  | sum, x :: xs, y :: ys => sumSquares m (m.add sum (m.pow2 (m.sub x y))) xs ys
  | sum, _, _ => sum

/-- The function `calculateDistance(features1, features2)`.  A missing vector (`null` or
`undefined`) is `none`; a coordinate is any number, NaN included. -/
def calculateDistance (m : JSMath K) (features1 features2 : Option (List (JSNum K))) :
    JSNum K :=
  match features1, features2 with
  | some f1, some f2 =>
    if f1.length ≠ f2.length then posInf
    else m.sqrtNum (sumSquares m (fin 0) f1 f2)
  | _, _ => posInf

/-- The function `distanceToConfidence(distance)`: the clamp to `[0, 100]` comes
first, `Math.round` last. -/
def distanceToConfidence (distance : JSNum K) : JSNum K :=
  let maxDistance : JSNum K := fin 500
  let confidence :=
    JSNum.max (fin 0) (JSNum.min (fin 100)
      (JSNum.sub (fin 100) (JSNum.mul (JSNum.div distance maxDistance) (fin 100))))
  JSNum.round confidence

/-- The confidence formula in the words of the specification:
`clamp(0, 100, round(100 - distance / MAX_DISTANCE * 100))`, which rounds first
and clamps afterwards, with `MAX_DISTANCE = 500`. -/
def specClamp (lo hi x : JSNum K) : JSNum K := JSNum.max lo (JSNum.min hi x)

/-- The specification's `confidence(distance)`. -/
def specConfidence (distance : JSNum K) : JSNum K :=
  specClamp (fin 0) (fin 100)
    (JSNum.round (JSNum.sub (fin 100) (JSNum.mul (JSNum.div distance (fin 500)) (fin 100))))

/-! ## Stored data -/

/-- An entry of the `registeredFaces` table: `{name, features, timestamp}`.
A missing `features` field is `none`. -/
structure Face (K : Type) where
  name : String
  features : Option (List (JSNum K))
  timestamp : Int
  deriving DecidableEq

/-- An entry of the `attendanceRecords` table.  The fields `date` and `time`
are locale renderings of `timestamp` and are not modelled. -/
structure AttendanceRecord where
  id : Int
  name : String
  timestamp : Int
  deriving DecidableEq

/-! ## Matcher scan (the `for` loop of `recognizeLoop`) -/

/-- The two variables of the scan: `bestMatch` and `minDistance`. -/
structure ScanState (K : Type) where
  bestMatch : Option (Face K)
  minDistance : JSNum K
  deriving DecidableEq

/-- One iteration of `for (const face of registeredFaces)`. -/
def scanStep (m : JSMath K) (features : List (JSNum K)) (st : ScanState K) (face : Face K) :
    ScanState K :=
  let distance := calculateDistance m (some features) face.features
  if JSNum.lt distance st.minDistance then
    { bestMatch := some face, minDistance := distance }
  else st

/-- The scan continued from a given state. -/
def scanFrom (m : JSMath K) (features : List (JSNum K)) (st : ScanState K) (faces : List (Face K)) :
    ScanState K :=
  faces.foldl (scanStep m features) st

/-- The whole scan: `bestMatch = null`, `minDistance = Infinity`, then the loop. -/
def matcherScan (m : JSMath K) (features : List (JSNum K)) (registeredFaces : List (Face K)) :
    ScanState K :=
  scanFrom m features { bestMatch := none, minDistance := posInf } registeredFaces

/-! ## Debouncer -/

/-- The function `isRecentlyMarked(name)`, with `now` the reading of `Date.now()`. -/
def isRecentlyMarked (records : List AttendanceRecord) (now : Int) (name : String) : Bool :=
  let fiveSecondsAgo := now - 5000
  records.any (fun r => r.name == name && decide (r.timestamp > fiveSecondsAgo))

/-- The specification's `shouldMark(identity, now, 5000)`: the negation of
`isRecentlyMarked(identity)` evaluated at clock reading `now`. -/
def shouldMark (records : List AttendanceRecord) (identity : String) (now : Int) : Bool :=
  !isRecentlyMarked records now identity

/-- The function `markAttendance(name)`: `dateTime` is the reading of `new Date()`, `idTime`
the later reading of `Date.now()` used for `id`; the record is put in front
(`unshift`). -/
def markAttendance (records : List AttendanceRecord) (dateTime idTime : Int) (name : String) :
    List AttendanceRecord :=
  { id := idTime, name := name, timestamp := dateTime } :: records

/-! ## One tick of `recognizeLoop` -/

/-- The result of a call that may throw (or of an awaited promise that may
reject). -/
inductive Outcome (α : Type) where
  | ok (value : α)
  | throws
  deriving DecidableEq

/-- A face region reported by `blazefaceModel.estimateFaces`. -/
structure Prediction (K : Type) where
  topLeft : K × K
  bottomRight : K × K
  deriving DecidableEq

/-- What a tick does to the outside world, in program order. -/
inductive Effect (K : Type) where
  /-- The assignment `fpsDisplay.textContent = fpsCounter`. -/
  | fpsDisplay (count : Nat)
  /-- The detection call `blazefaceModel.estimateFaces(attendanceVideo, false)`. -/
  | estimateFaces
  /-- The call `clearCanvas(attendanceCanvas)`. -/
  | clearCanvas
  /-- The call `extractFaceFeatures(attendanceVideo)`. -/
  | extractFaceFeatures
  /-- The call `drawFaceBox(attendanceCanvas, predictions[0], label, confidence)`. -/
  | drawFaceBox (prediction : Prediction K) (label : String) (confidence : JSNum K)
  /-- The call `markAttendance(name)`. -/
  | markAttendance (name : String)
  /-- The success status for `name` and `confidence`. -/
  | showStatus (name : String) (confidence : JSNum K)
  /-- The call `setTimeout(..., ms)` that reverts the status. -/
  | setTimeout (ms : Nat)
  /-- The call `console.error('Recognition error:', error)`. -/
  | consoleError
  /-- The call `requestAnimationFrame(recognizeLoop)`. -/
  | requestAnimationFrame
  deriving DecidableEq

/-- The variables a tick writes: `fpsCounter`, `lastTime` and the
`attendanceRecords` table (newest first). -/
structure LoopState where
  fpsCounter : Nat
  lastTime : Int
  attendanceRecords : List AttendanceRecord
  deriving DecidableEq

/-- What a tick reads from outside: the flag `isRecognizing` when the tick
begins, whether `attendanceVideo.readyState` is 4, the outcomes of detection,
of feature extraction and of reading the `registeredFaces` table, and the clock
readings, in program order: `now` (the FPS update), `checkTime` (inside
`isRecentlyMarked`), `dateTime` (`new Date()` in `markAttendance`) and `idTime`
(`Date.now()` for the record id). -/
structure TickInput (K : Type) where
  isRecognizing : Bool
  videoReady : Bool
  now : Int
  detection : Outcome (List (Prediction K))
  extraction : Outcome (Option (List (JSNum K)))
  registeredFaces : Outcome (List (Face K))
  checkTime : Int
  dateTime : Int
  idTime : Int
  deriving DecidableEq

/-- The clock readings of a tick, in program order. -/
def TickInput.readings (inp : TickInput K) : List Int :=
  [inp.now, inp.checkTime, inp.dateTime, inp.idTime]

/-- The threshold decision of `recognizeLoop` (from `const threshold = 60` to
the end of the `if`/`else`), for a matcher outcome `bestMatch`, `confidence`. -/
def decision (records : List AttendanceRecord) (checkTime dateTime idTime : Int)
    (prediction : Prediction K) (bestMatch : Option (Face K)) (confidence : JSNum K) :
    List AttendanceRecord × List (Effect K) :=
  let threshold : JSNum K := fin 60
  match bestMatch with
  | some face =>
    if JSNum.ge confidence threshold then
      if JSNum.ge confidence (fin 75) && !isRecentlyMarked records checkTime face.name then
        (markAttendance records dateTime idTime face.name,
          [Effect.drawFaceBox prediction face.name confidence,
           Effect.markAttendance face.name,
           Effect.showStatus face.name confidence,
           Effect.setTimeout 3000])
      else (records, [Effect.drawFaceBox prediction face.name confidence])
    else (records, [Effect.drawFaceBox prediction "Unknown" confidence])
  | none => (records, [Effect.drawFaceBox prediction "Unknown" confidence])

/-- The FPS update at the head of the `try` block: `fpsCounter++`, and once a
second has passed since `lastTime` the counter is displayed and reset. -/
def fpsUpdate (st : LoopState) (now : Int) : LoopState × List (Effect K) :=
  let fpsCounter := st.fpsCounter + 1
  if now - st.lastTime ≥ 1000 then
    ({ st with fpsCounter := 0, lastTime := now }, [Effect.fpsDisplay fpsCounter])
  else ({ st with fpsCounter := fpsCounter }, [])

/-- The body of the `try` block of `recognizeLoop`: the new state, the effects
and whether an exception reached the `catch`. -/
def tryBody (m : JSMath K) (st : LoopState) (inp : TickInput K) :
    LoopState × List (Effect K) × Bool :=
  let tick := fpsUpdate (K := K) st inp.now
  let st1 := tick.1
  match inp.detection with
  | Outcome.throws => (st1, tick.2 ++ [Effect.estimateFaces], true)
  | Outcome.ok [] => (st1, tick.2 ++ [Effect.estimateFaces, Effect.clearCanvas], false)
  | Outcome.ok (prediction :: _) =>
    let seen := tick.2 ++ [Effect.estimateFaces, Effect.clearCanvas, Effect.extractFaceFeatures]
    match inp.extraction with
    | Outcome.throws => (st1, seen, true)
    | Outcome.ok none => (st1, seen, false)
    | Outcome.ok (some features) =>
      match inp.registeredFaces with
      | Outcome.throws => (st1, seen, true)
      | Outcome.ok registeredFaces =>
        let scan := matcherScan m features registeredFaces
        let confidence := distanceToConfidence scan.minDistance
        let decided := decision st1.attendanceRecords inp.checkTime inp.dateTime inp.idTime
          prediction scan.bestMatch confidence
        ({ st1 with attendanceRecords := decided.1 }, seen ++ decided.2, false)

/-- One tick of `recognizeLoop`. -/
def recognizeLoop (m : JSMath K) (st : LoopState) (inp : TickInput K) :
    LoopState × List (Effect K) :=
  if !inp.isRecognizing || !inp.videoReady then
    if inp.isRecognizing then (st, [Effect.requestAnimationFrame])
    else (st, [])
  else
    let body := tryBody m st inp
    let caught : List (Effect K) := if body.2.2 then [Effect.consoleError] else []
    (body.1, body.2.1 ++ caught ++ [Effect.requestAnimationFrame])

/-- A sequence of ticks, each with its own inputs. -/
def runTicks (m : JSMath K) (st : LoopState) (inputs : List (TickInput K)) : LoopState :=
  inputs.foldl (fun s inp => (recognizeLoop m s inp).1) st

/-! ## Enrolment (`captureFace`) -/

/-- What `captureFace` reads from outside: `modelsLoaded`, the trimmed text of
the name field, whether `registerVideo.readyState` is 4, the outcomes of
detection and of feature extraction, and `Date.now()`. -/
structure CaptureInput (K : Type) where
  modelsLoaded : Bool
  name : String
  videoReady : Bool
  detection : Outcome (List (Prediction K))
  extraction : Outcome (Option (List (JSNum K)))
  now : Int
  deriving DecidableEq

/-- The store update of `captureFace`: `findIndex` on the lower-cased name, then
replace in place or `push`.  `String.prototype.toLowerCase` is a library
function and is a parameter. -/
def saveFace (toLowerCase : String → String) (registeredFaces : List (Face K))
    (faceData : Face K) : List (Face K) :=
  match registeredFaces.findIdx? (fun f => toLowerCase f.name == toLowerCase faceData.name) with
  | some existingIndex => registeredFaces.set existingIndex faceData
  | none => registeredFaces ++ [faceData]

/-- The function `captureFace()` as a function of the `registeredFaces` table: the table it
leaves behind. -/
def captureFace (toLowerCase : String → String) (registeredFaces : List (Face K))
    (inp : CaptureInput K) : List (Face K) :=
  if !inp.modelsLoaded then registeredFaces
  else if inp.name = "" then registeredFaces
  else if !inp.videoReady then registeredFaces
  else
    match inp.detection with
    | Outcome.ok (_ :: _) =>
      match inp.extraction with
      | Outcome.ok (some features) =>
        saveFace toLowerCase registeredFaces
          { name := inp.name, features := some features, timestamp := inp.now }
      | _ => registeredFaces
    | _ => registeredFaces

/-! ## Auxiliary definitions used in the statements and proofs -/

/-- The value `Math.max(0, Math.min(100, 100 - x / 500 * 100))` for a finite
distance `x`, before rounding. -/
def clamped (x : K) : K := Max.max 0 (Min.min 100 (100 - x / 500 * 100))

/-- The distance of a stored profile to the probe, as computed in the scan. -/
def distanceTo (m : JSMath K) (features : List (JSNum K)) (face : Face K) : JSNum K :=
  calculateDistance m (some features) face.features

/-- The label and confidence a `drawFaceBox` effect surfaces. -/
def Effect.label : Effect K → Option (String × JSNum K)
  | Effect.drawFaceBox _ label confidence => some (label, confidence)
  | _ => none

/-- The name a `markAttendance` effect marks. -/
def Effect.mark : Effect K → Option String
  | Effect.markAttendance name => some name
  | _ => none

/-- The labels surfaced by a list of effects, in order. -/
def surfaced (effects : List (Effect K)) : List (String × JSNum K) :=
  effects.filterMap Effect.label

/-- The names marked by a list of effects, in order. -/
def marked (effects : List (Effect K)) : List String :=
  effects.filterMap Effect.mark

/-- How many times a list of effects calls `requestAnimationFrame`. -/
def reschedules (effects : List (Effect K)) : Nat :=
  effects.count Effect.requestAnimationFrame

/-- How many detection calls a list of effects makes. -/
def detections (effects : List (Effect K)) : Nat :=
  effects.count Effect.estimateFaces

/-- An effect that is neither a label, a mark nor a reschedule. -/
def Effect.quiet (e : Effect K) : Prop :=
  e.label = none ∧ e.mark = none ∧ e ≠ Effect.requestAnimationFrame

/-- The effects of a tick before the decision. -/
def preamble (st : LoopState) (now : Int) : List (Effect K) :=
  (fpsUpdate st now).2 ++ [Effect.estimateFaces, Effect.clearCanvas, Effect.extractFaceFeatures]

/-- Same-name records are at least 5000 ms apart. -/
def Apart (records : List AttendanceRecord) : Prop :=
  records.Pairwise (fun r s => r.name = s.name → 5000 ≤ |r.timestamp - s.timestamp|)

/-! ## Example data

Concrete inputs over the rationals, used to evaluate the definitions. -/

/-- Example data: a square root that is exact on the squares of rationals (the
quotient of the integer square roots of numerator and denominator). -/
def ratSqrt (q : ℚ) : ℚ := (Nat.sqrt q.num.toNat : ℚ) / (Nat.sqrt q.den : ℚ)

/-- Example data: a rounding that is exact below `2 ^ 1024` in absolute value and
overflows to an infinity from there, as doubles do (the rounding of the mantissa
is left out). -/
def overflowRound (x : ℚ) : JSNum ℚ :=
  if 2 ^ 1024 ≤ x then posInf else if x ≤ -(2 ^ 1024) then negInf else fin x

/-- Example data: the arithmetic used to evaluate the definitions. -/
def exampleMath : JSMath ℚ := { toDouble := overflowRound, sqrt := ratSqrt }

/-- Example data: the profile "Alice" with a one-coordinate fingerprint. -/
def alice : Face ℚ := { name := "Alice", features := some [fin 0], timestamp := 0 }

/-- Example data: a probe with one coordinate, `2 ^ 700`, whose square is
beyond the largest double. -/
def hugeProbe : List (JSNum ℚ) := [fin (2 ^ 700)]

/-- Example data: a face region. -/
def box : Prediction ℚ := { topLeft := (0, 0), bottomRight := (1, 1) }

/-- Example data: a tick at clock reading `t` that sees one face whose probe
is at distance 50 from the fingerprint of `alice`. -/
def tickAt (t : Int) : TickInput ℚ :=
  { isRecognizing := true, videoReady := true, now := t,
    detection := Outcome.ok [box], extraction := Outcome.ok (some [fin 50]),
    registeredFaces := Outcome.ok [alice], checkTime := t, dateTime := t, idTime := t }

/-- Example data: the state before the first tick, with an empty log. -/
def startState : LoopState := { fpsCounter := 0, lastTime := 0, attendanceRecords := [] }

/-- Example data: lower-casing of the letters A to Z, for evaluating examples. -/
def asciiLower (s : String) : String := String.mk (s.data.map Char.toLower)

/-- Example data: three profiles, the last two tied at the smallest distance
from the probe `[fin 0]`. -/
def threeFaces : List (Face ℚ) :=
  [{ name := "A", features := some [fin 3], timestamp := 0 },
   { name := "B", features := some [fin 1], timestamp := 0 },
   { name := "C", features := some [fin (-1)], timestamp := 0 }]

/-- Example data: a profile whose fingerprint is longer than the probe `[0]`. -/
def longFace : Face ℚ := { name := "A", features := some [fin 0, fin 0], timestamp := 0 }

/-- Example data: an enrolment of the name "alice" while ready, with one face
detected and a fingerprint extracted. -/
def aliceAgain : CaptureInput ℚ :=
  { modelsLoaded := true, name := "alice", videoReady := true,
    detection := Outcome.ok [box], extraction := Outcome.ok (some [fin 1]), now := 5 }

/-- Example data: a tick that begins after the loop was stopped. -/
def idleTick : TickInput ℚ := { tickAt 1000 with isRecognizing := false }

/-- Example data: a running tick whose detection call throws. -/
def throwingTick : TickInput ℚ := { tickAt 1000 with detection := Outcome.throws }

/-- Example data: a log with a mark for "A" at 500 and one for "B" at 900. -/
def earlierMarks : List AttendanceRecord :=
  [{ id := 900, name := "B", timestamp := 900 }, { id := 500, name := "A", timestamp := 500 }]

/-! ## Confidence: lemmas and theorems -/

theorem JSNum.min_fin (a b : K) : JSNum.min (fin a) (fin b) = fin (Min.min a b) := by
  simp only [JSNum.min, JSNum.lt]
  by_cases h : b < a
  · simp [h, min_eq_right (le_of_lt h)]
  · simp [h, min_eq_left (not_lt.mp h)]

theorem JSNum.max_fin (a b : K) : JSNum.max (fin a) (fin b) = fin (Max.max a b) := by
  simp only [JSNum.max, JSNum.lt]
  by_cases h : a < b
  · simp [h, max_eq_right (le_of_lt h)]
  · simp [h, max_eq_left (not_lt.mp h)]

theorem floor_half : (⌊(0 : K) + 1 / 2⌋ : ℤ) = 0 := by
  rw [Int.floor_eq_iff]; norm_num

theorem floor_hundred_half : (⌊(100 : K) + 1 / 2⌋ : ℤ) = 100 := by
  rw [Int.floor_eq_iff]; norm_num

theorem distanceToConfidence_fin (x : K) :
    distanceToConfidence (fin x) = fin ((⌊clamped x + 1 / 2⌋ : ℤ) : K) := by
  have h500 : (500 : K) ≠ 0 := by norm_num
  simp [distanceToConfidence, JSNum.div, JSNum.mul, JSNum.sub, JSNum.min_fin, JSNum.max_fin,
    JSNum.round, clamped, h500]

theorem distanceToConfidence_posInf : distanceToConfidence (posInf : JSNum K) = fin 0 := by
  have h500 : ¬ (500 : K) < 0 := by norm_num
  have h100 : (0 : K) < 100 := by norm_num
  simp [distanceToConfidence, JSNum.div, JSNum.mul, JSNum.sub, JSNum.min, JSNum.max, JSNum.lt,
    JSNum.round, JSNum.infTimes, h500, h100]
  norm_num

theorem distanceToConfidence_negInf : distanceToConfidence (negInf : JSNum K) = fin 100 := by
  have h500 : ¬ (500 : K) < 0 := by norm_num
  have h100 : (0 : K) < 100 := by norm_num
  simp [distanceToConfidence, JSNum.div, JSNum.mul, JSNum.sub, JSNum.min, JSNum.max, JSNum.lt,
    JSNum.round, JSNum.infTimes, JSNum.neg, h500, h100]
  norm_num

theorem distanceToConfidence_nan : distanceToConfidence (nan : JSNum K) = nan := by
  simp [distanceToConfidence, JSNum.div, JSNum.mul, JSNum.sub, JSNum.min, JSNum.max,
    JSNum.round]

theorem clamped_nonneg (x : K) : 0 ≤ clamped x := le_max_left _ _

theorem clamped_le (x : K) : clamped x ≤ 100 :=
  max_le (by norm_num) (min_le_left _ _)

theorem clamped_anti {x y : K} (h : x ≤ y) : clamped y ≤ clamped x := by
  unfold clamped
  apply max_le_max le_rfl
  apply min_le_min le_rfl
  have : x / 500 * 100 ≤ y / 500 * 100 := by
    apply mul_le_mul_of_nonneg_right _ (by norm_num)
    exact div_le_div_of_nonneg_right h (by norm_num)
  linarith

theorem floor_clamped_nonneg (x : K) : 0 ≤ (⌊clamped x + 1 / 2⌋ : ℤ) := by
  apply Int.floor_nonneg.mpr
  have := clamped_nonneg x
  linarith

theorem floor_clamped_le (x : K) : (⌊clamped x + 1 / 2⌋ : ℤ) ≤ 100 := by
  have h := clamped_le x
  have : (⌊clamped x + 1 / 2⌋ : ℤ) < 101 := by
    rw [Int.floor_lt]; push_cast; linarith
  omega


theorem round_clamp_comm (y : K) :
    (⌊Max.max 0 (Min.min 100 y) + 1 / 2⌋ : ℤ) = Max.max 0 (Min.min 100 ⌊y + 1 / 2⌋) := by
  rcases le_total y 0 with h0 | h0
  · have h1 : Min.min 100 y = y := min_eq_right (by linarith)
    have h2 : Max.max 0 y = 0 := max_eq_left h0
    have h3 : (⌊y + 1 / 2⌋ : ℤ) ≤ 0 := by
      have : (⌊y + 1 / 2⌋ : ℤ) < 1 := by rw [Int.floor_lt]; push_cast; linarith
      omega
    rw [h1, h2, floor_half]
    omega
  · rcases le_total y 100 with h100 | h100
    · have h1 : Min.min 100 y = y := min_eq_right h100
      have h2 : Max.max 0 y = y := max_eq_right h0
      have h3 : 0 ≤ (⌊y + 1 / 2⌋ : ℤ) := Int.floor_nonneg.mpr (by linarith)
      have h4 : (⌊y + 1 / 2⌋ : ℤ) ≤ 100 := by
        have : (⌊y + 1 / 2⌋ : ℤ) < 101 := by rw [Int.floor_lt]; push_cast; linarith
        omega
      rw [h1, h2]
      omega
    · have h1 : Min.min 100 y = 100 := min_eq_left h100
      have h2 : Max.max (0 : K) 100 = 100 := max_eq_right (by norm_num)
      have h3 : 100 ≤ (⌊y + 1 / 2⌋ : ℤ) := by
        rw [Int.le_floor]; push_cast; linarith
      rw [h1, h2, floor_hundred_half]
      omega

/-- C5 (confidence formula).  For every distance `d` (finite of either sign,
`Infinity`, and also `-Infinity` and NaN), `distanceToConfidence d`, which clamps
`100 - d / 500 * 100` to `[0, 100]` and then rounds, equals the specification's
`clamp(0, 100, round(100 - d / 500 * 100))`, which rounds and then clamps; and
for every `d` other than NaN the result is an integer. -/
theorem distanceToConfidence_eq_specConfidence (d : JSNum K) :
    distanceToConfidence d = specConfidence d ∧
    (d ≠ nan → ∃ n : ℤ, distanceToConfidence d = fin (n : K)) := by
  constructor
  · cases d with
    | fin x =>
      rw [distanceToConfidence_fin]
      have h500 : (500 : K) ≠ 0 := by norm_num
      simp only [specConfidence, specClamp, JSNum.div, JSNum.mul, JSNum.sub, JSNum.round, h500,
        if_false, JSNum.min_fin, JSNum.max_fin, clamped]
      congr 1
      rw [round_clamp_comm]
      push_cast
      rfl
    | posInf =>
      rw [distanceToConfidence_posInf]
      have h500 : ¬ (500 : K) < 0 := by norm_num
      have h100 : (0 : K) < 100 := by norm_num
      simp [specConfidence, specClamp, JSNum.div, JSNum.mul, JSNum.sub, JSNum.min, JSNum.max,
        JSNum.lt, JSNum.round, JSNum.infTimes, h500, h100]
    | negInf =>
      rw [distanceToConfidence_negInf]
      have h500 : ¬ (500 : K) < 0 := by norm_num
      have h100 : (0 : K) < 100 := by norm_num
      simp [specConfidence, specClamp, JSNum.div, JSNum.mul, JSNum.sub, JSNum.min, JSNum.max,
        JSNum.lt, JSNum.round, JSNum.infTimes, JSNum.neg, h500, h100]
    | nan =>
      rw [distanceToConfidence_nan]
      simp [specConfidence, specClamp, JSNum.div, JSNum.mul, JSNum.sub, JSNum.min, JSNum.max,
        JSNum.round]
  · intro hd
    cases d with
    | fin x => exact ⟨_, distanceToConfidence_fin x⟩
    | posInf => exact ⟨0, by rw [distanceToConfidence_posInf]; simp⟩
    | negInf => exact ⟨100, by rw [distanceToConfidence_negInf]; simp⟩
    | nan => exact absurd rfl hd


/-- C6 (distance fails closed).  If either vector is absent or the two vectors
differ in length, `calculateDistance` returns `Infinity`, and the confidence of
that distance is 0. -/
theorem calculateDistance_fails_closed (m : JSMath K) (a b : Option (List (JSNum K)))
    (h : a = none ∨ b = none ∨ ∃ x y, a = some x ∧ b = some y ∧ x.length ≠ y.length) :
    calculateDistance m a b = posInf ∧
    distanceToConfidence (calculateDistance m a b) = fin 0 := by
  have hd : calculateDistance m a b = posInf := by
    rcases h with h | h | ⟨x, y, hx, hy, hxy⟩
    · subst h; simp [calculateDistance]
    · subst h; cases a <;> simp [calculateDistance]
    · subst hx; subst hy; simp [calculateDistance, hxy]
  exact ⟨hd, by rw [hd, distanceToConfidence_posInf]⟩

theorem distanceToConfidence_bounds (d : JSNum K) (hd : d ≠ nan) :
    ∃ n : ℤ, distanceToConfidence d = fin (n : K) ∧ 0 ≤ n ∧ n ≤ 100 := by
  cases d with
  | fin x => exact ⟨_, distanceToConfidence_fin x, floor_clamped_nonneg x, floor_clamped_le x⟩
  | posInf => exact ⟨0, by rw [distanceToConfidence_posInf]; simp, le_rfl, by norm_num⟩
  | negInf => exact ⟨100, by rw [distanceToConfidence_negInf]; simp, by norm_num, le_rfl⟩
  | nan => exact absurd rfl hd

/-- C7 (confidence is non-increasing and bounded).  If `d1 <= d2` then
`distanceToConfidence d1 >= distanceToConfidence d2`, for finite distances of
either sign and the infinities; and for every distance other than NaN the
confidence lies between 0 and 100. -/
theorem distanceToConfidence_antitone_bounded (d1 d2 : JSNum K) :
    (JSNum.le d1 d2 = true →
      JSNum.ge (distanceToConfidence d1) (distanceToConfidence d2) = true) ∧
    (d1 ≠ nan →
      JSNum.le (fin 0) (distanceToConfidence d1) = true ∧
      JSNum.le (distanceToConfidence d1) (fin 100) = true) := by
  constructor
  · intro h
    have h1 : d1 ≠ nan := by rintro rfl; simp [JSNum.le] at h
    have h2 : d2 ≠ nan := by rintro rfl; cases d1 <;> simp [JSNum.le] at h
    cases d1 with
    | nan => exact absurd rfl h1
    | negInf =>
      obtain ⟨n, hn, -, hn100⟩ := distanceToConfidence_bounds d2 h2
      rw [distanceToConfidence_negInf, hn]
      simp only [JSNum.ge, JSNum.le, decide_eq_true_eq]
      exact_mod_cast hn100
    | posInf =>
      cases d2 with
      | posInf => simp [JSNum.ge, JSNum.le, distanceToConfidence_posInf]
      | fin y => simp [JSNum.le] at h
      | negInf => simp [JSNum.le] at h
      | nan => exact absurd rfl h2
    | fin x =>
      cases d2 with
      | nan => exact absurd rfl h2
      | negInf => simp [JSNum.le] at h
      | posInf =>
        rw [distanceToConfidence_posInf, distanceToConfidence_fin]
        simp only [JSNum.ge, JSNum.le, decide_eq_true_eq]
        exact_mod_cast floor_clamped_nonneg x
      | fin y =>
        have hxy : x ≤ y := by simpa [JSNum.le] using h
        rw [distanceToConfidence_fin, distanceToConfidence_fin]
        simp only [JSNum.ge, JSNum.le, decide_eq_true_eq]
        have : (⌊clamped y + 1 / 2⌋ : ℤ) ≤ ⌊clamped x + 1 / 2⌋ :=
          Int.floor_le_floor (by have := clamped_anti hxy; linarith)
        exact_mod_cast this
  · intro hd
    obtain ⟨n, hn, h0, h100⟩ := distanceToConfidence_bounds d1 hd
    rw [hn]
    simp only [JSNum.le, decide_eq_true_eq]
    exact ⟨by exact_mod_cast h0, by exact_mod_cast h100⟩

/-! ## Matcher scan: lemmas and theorems -/

/-! ### Order facts on JavaScript numbers -/

theorem JSNum.lt_irrefl_false (a : JSNum K) : JSNum.lt a a = false := by
  cases a <;> simp [JSNum.lt]

theorem JSNum.lt_chain {a b c : JSNum K} (h1 : JSNum.lt a b = true) (h2 : JSNum.lt b c = true) :
    JSNum.lt a c = true := by
  cases a <;> cases b <;> cases c <;> simp_all [JSNum.lt]
  exact h1.trans h2

theorem JSNum.not_le_of_lt {a b : JSNum K} (h : JSNum.lt a b = true) :
    JSNum.le b a = false := by
  cases a <;> cases b <;> simp_all [JSNum.lt, JSNum.le]

theorem JSNum.not_lt_of_not_le {a b : JSNum K} (h : JSNum.le a b = false) :
    JSNum.lt a b = false := by
  cases a <;> cases b <;> simp_all [JSNum.lt, JSNum.le]
  exact h.le

/-- A value that is not below a bound is not at most a value below the bound. -/
theorem JSNum.not_le_of_lt_of_not_lt {a b c : JSNum K}
    (h1 : JSNum.lt a c = true) (h2 : JSNum.lt b c = false) : JSNum.le b a = false := by
  cases a <;> cases b <;> cases c <;> simp_all [JSNum.lt, JSNum.le]
  exact h1.trans_le h2

theorem scanFrom_cons (m : JSMath K) (features : List (JSNum K)) (st : ScanState K)
    (face : Face K) (faces : List (Face K)) :
    scanFrom m features st (face :: faces) =
      scanFrom m features (scanStep m features st face) faces := rfl

/-- The loop invariant of the matcher scan, for distances of any kind (finite,
infinite or NaN): either no profile is below the starting `minDistance` and the
state is unchanged, or the scan holds the first profile below which no profile
is. -/
theorem scanFrom_spec (m : JSMath K) (features : List (JSNum K)) (faces : List (Face K)) :
    ∀ st : ScanState K,
      (scanFrom m features st faces = st ∧
        ∀ p ∈ faces, JSNum.lt (distanceTo m features p) st.minDistance = false) ∨
      (∃ (i : Nat) (p : Face K), faces[i]? = some p ∧
        scanFrom m features st faces =
          { bestMatch := some p, minDistance := distanceTo m features p } ∧
        JSNum.lt (distanceTo m features p) st.minDistance = true ∧
        ∀ (j : Nat) (q : Face K), faces[j]? = some q →
          JSNum.lt (distanceTo m features q) (distanceTo m features p) = false ∧
          (j < i → JSNum.le (distanceTo m features q) (distanceTo m features p) = false)) := by
  induction faces with
  | nil => intro st; left; simp [scanFrom]
  | cons x xs ih =>
    intro st
    rw [scanFrom_cons]
    by_cases hx : JSNum.lt (distanceTo m features x) st.minDistance = true
    · have hstep : scanStep m features st x =
          { bestMatch := some x, minDistance := distanceTo m features x } := by
        simp only [scanStep, distanceTo] at hx ⊢
        simp [hx]
      rw [hstep]
      rcases ih { bestMatch := some x, minDistance := distanceTo m features x } with
        ⟨hr, hall⟩ | ⟨i, p, hip, hr, hlt, hmin⟩
      · right
        refine ⟨0, x, by simp, hr, hx, ?_⟩
        intro j q hjq
        cases j with
        | zero =>
          simp at hjq; subst hjq
          exact ⟨JSNum.lt_irrefl_false _, by simp⟩
        | succ j =>
          simp at hjq
          exact ⟨hall q (List.getElem?_mem hjq), by simp⟩
      · right
        refine ⟨i + 1, p, by simpa using hip, hr, JSNum.lt_chain hlt hx, ?_⟩
        intro j q hjq
        cases j with
        | zero =>
          simp at hjq; subst hjq
          have hle := JSNum.not_le_of_lt hlt
          exact ⟨JSNum.not_lt_of_not_le hle, fun _ => hle⟩
        | succ j =>
          simp at hjq
          have := hmin j q hjq
          exact ⟨this.1, fun h => this.2 (by omega)⟩
    · have hx' : JSNum.lt (distanceTo m features x) st.minDistance = false := by
        simpa using hx
      have hstep : scanStep m features st x = st := by
        simp only [scanStep, distanceTo] at hx' ⊢
        simp [hx']
      rw [hstep]
      rcases ih st with ⟨hr, hall⟩ | ⟨i, p, hip, hr, hlt, hmin⟩
      · left
        refine ⟨hr, ?_⟩
        intro p hp
        rcases List.mem_cons.mp hp with rfl | hp
        · exact hx'
        · exact hall p hp
      · right
        refine ⟨i + 1, p, by simpa using hip, hr, hlt, ?_⟩
        intro j q hjq
        cases j with
        | zero =>
          simp at hjq; subst hjq
          have hle := JSNum.not_le_of_lt_of_not_lt hlt hx'
          exact ⟨JSNum.not_lt_of_not_le hle, fun _ => hle⟩
        | succ j =>
          simp at hjq
          have := hmin j q hjq
          exact ⟨this.1, fun h => this.2 (by omega)⟩

/-- A distance below `Infinity` comes from a fingerprint of the probe's length. -/
theorem length_eq_of_lt_posInf (m : JSMath K) (probe : List (JSNum K))
    (features : Option (List (JSNum K)))
    (h : JSNum.lt (calculateDistance m (some probe) features) posInf = true) :
    ∃ f, features = some f ∧ f.length = probe.length := by
  cases features with
  | none => simp [calculateDistance, JSNum.lt] at h
  | some f =>
    by_cases hl : probe.length = f.length
    · exact ⟨f, rfl, hl.symm⟩
    · simp [calculateDistance, hl, JSNum.lt] at h


/-- C1, amended (matcher scan).  For a non-empty enrolled sequence in which every
distance `calculateDistance(probe, p.features)` is finite, every fingerprint has
the length of the probe, and the scan selects the profile at an index `i` whose
distance to the probe is at most the distance of every enrolled profile and
strictly less than the distance of every profile before `i`: the first profile
at the minimum distance.  `minDistance` is that minimum. -/
theorem matcherScan_first_minimum (m : JSMath K) (probe : List (JSNum K))
    (enrolled : List (Face K)) (hne : enrolled ≠ [])
    (hfin : ∀ p ∈ enrolled, ∃ x, calculateDistance m (some probe) p.features = fin x) :
    (∀ p ∈ enrolled, ∃ f, p.features = some f ∧ f.length = probe.length) ∧
    ∃ (i : Nat) (p : Face K), enrolled[i]? = some p ∧
      (matcherScan m probe enrolled).bestMatch = some p ∧
      (matcherScan m probe enrolled).minDistance =
        calculateDistance m (some probe) p.features ∧
      (∀ (j : Nat) (q : Face K), enrolled[j]? = some q →
        JSNum.le (calculateDistance m (some probe) p.features)
          (calculateDistance m (some probe) q.features) = true) ∧
      (∀ (j : Nat) (q : Face K), enrolled[j]? = some q → j < i →
        JSNum.lt (calculateDistance m (some probe) p.features)
          (calculateDistance m (some probe) q.features) = true) := by
  constructor
  · intro p hp
    obtain ⟨x, hx⟩ := hfin p hp
    apply length_eq_of_lt_posInf m probe p.features
    rw [hx]; simp [JSNum.lt]
  rcases scanFrom_spec m probe enrolled { bestMatch := none, minDistance := posInf } with
    ⟨-, hall⟩ | ⟨i, p, hip, hr, -, hmin⟩
  · exfalso
    cases enrolled with
    | nil => exact hne rfl
    | cons x xs =>
      obtain ⟨y, hy⟩ := hfin x (List.mem_cons_self _ _)
      have := hall x (List.mem_cons_self _ _)
      simp [distanceTo, hy, JSNum.lt] at this
  · obtain ⟨x, hx⟩ := hfin p (List.getElem?_mem hip)
    refine ⟨i, p, hip, ?_, ?_, ?_, ?_⟩
    · show (scanFrom m probe _ enrolled).bestMatch = _
      rw [hr]
    · show (scanFrom m probe _ enrolled).minDistance = _
      rw [hr]; rfl
    · intro j q hjq
      obtain ⟨y, hy⟩ := hfin q (List.getElem?_mem hjq)
      have h := (hmin j q hjq).1
      simp only [distanceTo, hx, hy, JSNum.lt, decide_eq_false_iff_not, not_lt] at h
      simpa [hx, hy, JSNum.le] using h
    · intro j q hjq hji
      obtain ⟨y, hy⟩ := hfin q (List.getElem?_mem hjq)
      have h := (hmin j q hjq).2 hji
      simp only [distanceTo, hx, hy, JSNum.le, decide_eq_false_iff_not, not_le] at h
      simpa [hx, hy, JSNum.lt] using h

/-- C8, amended (candidate existence).  The scan yields no candidate exactly
when no enrolled profile is at a distance below `Infinity` from the probe (every
distance is `Infinity` or NaN); `minDistance` is then `Infinity` and the
confidence 0.  That is the case when every enrolled fingerprint is missing or
of another length than the probe, and for the empty sequence.  A candidate that
is returned is an enrolled profile with a fingerprint of the probe's length at
a distance below `Infinity`, and `minDistance` is that distance. -/
theorem matcherScan_none_iff (m : JSMath K) (probe : List (JSNum K))
    (enrolled : List (Face K)) :
    ((matcherScan m probe enrolled).bestMatch = none ↔
      ∀ p ∈ enrolled,
        JSNum.lt (calculateDistance m (some probe) p.features) posInf = false) ∧
    ((matcherScan m probe enrolled).bestMatch = none →
      (matcherScan m probe enrolled).minDistance = posInf ∧
      distanceToConfidence (matcherScan m probe enrolled).minDistance = fin 0) ∧
    ((∀ p ∈ enrolled, p.features = none ∨
        ∃ f, p.features = some f ∧ f.length ≠ probe.length) →
      (matcherScan m probe enrolled).bestMatch = none) ∧
    (matcherScan m probe ([] : List (Face K))).bestMatch = none ∧
    (∀ p : Face K, (matcherScan m probe enrolled).bestMatch = some p →
      p ∈ enrolled ∧ (∃ f, p.features = some f ∧ f.length = probe.length) ∧
      JSNum.lt (calculateDistance m (some probe) p.features) posInf = true ∧
      (matcherScan m probe enrolled).minDistance =
        calculateDistance m (some probe) p.features) := by
  have hguard : (∀ p ∈ enrolled, p.features = none ∨
      ∃ f, p.features = some f ∧ f.length ≠ probe.length) →
      ∀ p ∈ enrolled,
        JSNum.lt (calculateDistance m (some probe) p.features) posInf = false := by
    intro h p hp
    rcases h p hp with hn | ⟨f, hf, hl⟩
    · rw [hn]; simp [calculateDistance, JSNum.lt]
    · rw [hf]; simp [calculateDistance, Ne.symm hl, JSNum.lt]
  rcases scanFrom_spec m probe enrolled { bestMatch := none, minDistance := posInf } with
    ⟨hr, hall⟩ | ⟨i, p, hip, hr, hlt, -⟩
  · have hb : (matcherScan m probe enrolled).bestMatch = none := by
      show (scanFrom m probe _ enrolled).bestMatch = _
      rw [hr]
    have hm : (matcherScan m probe enrolled).minDistance = posInf := by
      show (scanFrom m probe _ enrolled).minDistance = _
      rw [hr]
    refine ⟨⟨fun _ => hall, fun _ => hb⟩, fun _ => ⟨hm, ?_⟩, fun _ => hb, rfl, ?_⟩
    · rw [hm]; exact distanceToConfidence_posInf
    · intro q hq
      rw [hb] at hq; cases hq
  · have hb : (matcherScan m probe enrolled).bestMatch = some p := by
      show (scanFrom m probe _ enrolled).bestMatch = _
      rw [hr]
    have hm : (matcherScan m probe enrolled).minDistance =
        calculateDistance m (some probe) p.features := by
      show (scanFrom m probe _ enrolled).minDistance = _
      rw [hr]; rfl
    have hnot : ¬ ∀ q ∈ enrolled,
        JSNum.lt (calculateDistance m (some probe) q.features) posInf = false := by
      intro h
      have := h p (List.getElem?_mem hip)
      simp only [distanceTo] at hlt
      rw [this] at hlt
      cases hlt
    refine ⟨⟨fun h => ?_, fun h => absurd h hnot⟩, fun h => ?_,
      fun h => absurd (hguard h) hnot, rfl, ?_⟩
    · rw [hb] at h; cases h
    · rw [hb] at h; cases h
    · intro q hq
      rw [hb] at hq
      cases hq
      exact ⟨List.getElem?_mem hip, length_eq_of_lt_posInf m probe p.features hlt, hlt, hm⟩

/-- C8, counterexample.  With the probe `[0]` and one enrolled profile whose
fingerprint has two coordinates, the enrolled sequence is not empty and yet the
scan yields no candidate. -/
theorem matcherScan_nonempty_none :
    ¬ ((matcherScan exampleMath [fin 0]
          [({ name := "A", features := some [fin 0, fin 0], timestamp := 0 } : Face ℚ)]).bestMatch
          = none ↔
        [({ name := "A", features := some [fin 0, fin 0], timestamp := 0 } : Face ℚ)] = []) := by
  simp [matcherScan, scanFrom, scanStep, calculateDistance, JSNum.lt]

/-! ## Debouncer: lemmas and theorems -/

theorem isRecentlyMarked_eq_true_iff (records : List AttendanceRecord) (now : Int)
    (name : String) :
    isRecentlyMarked records now name = true ↔
      ∃ r ∈ records, r.name = name ∧ now - 5000 < r.timestamp := by
  simp [isRecentlyMarked]

theorem isRecentlyMarked_eq_false_iff (records : List AttendanceRecord) (now : Int)
    (name : String) :
    isRecentlyMarked records now name = false ↔
      ∀ r ∈ records, r.name = name → r.timestamp ≤ now - 5000 := by
  simp [isRecentlyMarked]

/-- C2, counterexample.  With one mark for "A" at time 0 and the clock at 5000,
the mark lies in the closed window `[now - 5000, now]` and yet `shouldMark` is
true: the lower end of the window is open. -/
theorem shouldMark_closed_window_fails :
    ¬ (shouldMark [{ id := 0, name := "A", timestamp := 0 }] "A" 5000 = true ↔
        ∀ r ∈ [({ id := 0, name := "A", timestamp := 0 } : AttendanceRecord)],
          r.name = "A" → ¬ (5000 - 5000 ≤ r.timestamp ∧ r.timestamp ≤ 5000)) := by
  simp [shouldMark, isRecentlyMarked]

/-- C2, amended (debouncer).  `shouldMark identity now` is true exactly when the
log holds no record for the identity with `now - 5000 < timestamp`; when no
record of the log is later than `now`, that is the window `(now - 5000, now]`,
open at the lower end.  After `markAttendance` for an identity at `t0`,
`shouldMark` is false at `t0 + 4999`, and it is true at `t0 + 5001` when the
earlier marks of the identity are not later than `t0`. -/
theorem shouldMark_iff_no_mark_after (records : List AttendanceRecord) (identity : String)
    (now t0 idTime : Int) :
    (shouldMark records identity now = true ↔
      ∀ r ∈ records, r.name = identity → ¬ (now - 5000 < r.timestamp)) ∧
    ((∀ r ∈ records, r.timestamp ≤ now) →
      (shouldMark records identity now = true ↔
        ∀ r ∈ records, r.name = identity → ¬ (now - 5000 < r.timestamp ∧ r.timestamp ≤ now))) ∧
    shouldMark (markAttendance records t0 idTime identity) identity (t0 + 4999) = false ∧
    ((∀ r ∈ records, r.name = identity → r.timestamp ≤ t0) →
      shouldMark (markAttendance records t0 idTime identity) identity (t0 + 5001) = true) := by
  have h1 : shouldMark records identity now = true ↔
      ∀ r ∈ records, r.name = identity → ¬ (now - 5000 < r.timestamp) := by
    simp [shouldMark, isRecentlyMarked]
  refine ⟨h1, fun hle => ?_, ?_, fun hold => ?_⟩
  · rw [h1]
    constructor
    · intro h r hr hn hc; exact h r hr hn hc.1
    · intro h r hr hn hc; exact h r hr hn ⟨hc, hle r hr⟩
  · simp only [shouldMark, Bool.not_eq_false', isRecentlyMarked_eq_true_iff, markAttendance]
    exact ⟨_, List.mem_cons_self _ _, rfl, by show t0 + 4999 - 5000 < t0; omega⟩
  · simp only [shouldMark, Bool.not_eq_true', isRecentlyMarked_eq_false_iff, markAttendance,
      List.mem_cons]
    rintro r (rfl | hr) hn
    · show t0 ≤ t0 + 5001 - 5000; omega
    · have := hold r hr hn
      omega

/-- C2, witness: a log with marks for "A" at 500 and for "B" at 900.  At 6000
`shouldMark` for "A" agrees with the half-open window; after a mark for "A" at
1000 it is false at 5999 and true at 6001. -/
theorem shouldMark_iff_no_mark_after_witness :
    (∀ r ∈ earlierMarks, r.timestamp ≤ 6000) ∧
    (∀ r ∈ earlierMarks, r.name = "A" → r.timestamp ≤ 1000) ∧
    (shouldMark earlierMarks "A" 6000 = true ↔
      ∀ r ∈ earlierMarks, r.name = "A" → ¬ (6000 - 5000 < r.timestamp ∧ r.timestamp ≤ 6000)) ∧
    shouldMark (markAttendance earlierMarks 1000 1000 "A") "A" (1000 + 4999) = false ∧
    shouldMark (markAttendance earlierMarks 1000 1000 "A") "A" (1000 + 5001) = true :=
  ⟨by decide, by decide,
    (shouldMark_iff_no_mark_after earlierMarks "A" 6000 1000 1000).2.1 (by decide),
    (shouldMark_iff_no_mark_after earlierMarks "A" 6000 1000 1000).2.2.1,
    (shouldMark_iff_no_mark_after earlierMarks "A" 6000 1000 1000).2.2.2 (by decide)⟩

/-! ## Decision and tick: lemmas and theorems -/

theorem ge_sixty_of_ge_seventyfive {c : JSNum K} (h : JSNum.ge c (fin 75) = true) :
    JSNum.ge c (fin 60) = true := by
  cases c <;> simp_all [JSNum.ge, JSNum.le]
  linarith

/-- The decision, case by case. -/
theorem decision_eq (records : List AttendanceRecord) (checkTime dateTime idTime : Int)
    (prediction : Prediction K) (bestMatch : Option (Face K)) (confidence : JSNum K) :
    (∀ face, bestMatch = some face → JSNum.ge confidence (fin 75) = true →
      isRecentlyMarked records checkTime face.name = false →
      decision records checkTime dateTime idTime prediction bestMatch confidence =
        (markAttendance records dateTime idTime face.name,
          [Effect.drawFaceBox prediction face.name confidence, Effect.markAttendance face.name,
           Effect.showStatus face.name confidence, Effect.setTimeout 3000])) ∧
    (∀ face, bestMatch = some face → JSNum.ge confidence (fin 60) = true →
      ¬ (JSNum.ge confidence (fin 75) = true ∧
        isRecentlyMarked records checkTime face.name = false) →
      decision records checkTime dateTime idTime prediction bestMatch confidence =
        (records, [Effect.drawFaceBox prediction face.name confidence])) ∧
    ((bestMatch = none ∨ JSNum.ge confidence (fin 60) = false) →
      decision records checkTime dateTime idTime prediction bestMatch confidence =
        (records, [Effect.drawFaceBox prediction "Unknown" confidence])) := by
  refine ⟨fun face hb h75 hr => ?_, fun face hb h60 hn => ?_, fun h => ?_⟩
  · subst hb
    simp [decision, ge_sixty_of_ge_seventyfive h75, h75, hr]
  · subst hb
    have : (JSNum.ge confidence (fin 75) && !isRecentlyMarked records checkTime face.name)
        = false := by
      cases h1 : JSNum.ge confidence (fin 75) <;>
        cases h2 : isRecentlyMarked records checkTime face.name <;> simp_all
    simp [decision, h60, this]
  · rcases h with rfl | h
    · simp [decision]
    · cases bestMatch <;> simp [decision, h]

theorem fpsUpdate_records (st : LoopState) (now : Int) :
    (fpsUpdate (K := K) st now).1.attendanceRecords = st.attendanceRecords := by
  unfold fpsUpdate; split <;> rfl

theorem fpsUpdate_quiet (st : LoopState) (now : Int) :
    ∀ e ∈ (fpsUpdate (K := K) st now).2, e.quiet := by
  intro e he
  unfold fpsUpdate at he
  split at he
  · simp at he; subst he; simp [Effect.quiet, Effect.label, Effect.mark]
  · simp at he

theorem preamble_quiet (st : LoopState) (now : Int) :
    ∀ e ∈ preamble (K := K) st now, e.quiet := by
  intro e he
  rcases List.mem_append.mp he with h | h
  · exact fpsUpdate_quiet st now e h
  · simp at h
    rcases h with rfl | rfl | rfl <;> simp [Effect.quiet, Effect.label, Effect.mark]

theorem tryBody_spec (m : JSMath K) (st : LoopState) (inp : TickInput K) :
    ((tryBody m st inp).1.attendanceRecords = st.attendanceRecords ∧
      ∀ e ∈ (tryBody m st inp).2.1, e.quiet) ∨
    ∃ pred rest features faces,
      inp.detection = Outcome.ok (pred :: rest) ∧
      inp.extraction = Outcome.ok (some features) ∧
      inp.registeredFaces = Outcome.ok faces ∧
      (tryBody m st inp).1.attendanceRecords =
        (decision st.attendanceRecords inp.checkTime inp.dateTime inp.idTime pred
          (matcherScan m features faces).bestMatch
          (distanceToConfidence (matcherScan m features faces).minDistance)).1 ∧
      (tryBody m st inp).2.1 = preamble st inp.now ++
        (decision st.attendanceRecords inp.checkTime inp.dateTime inp.idTime pred
          (matcherScan m features faces).bestMatch
          (distanceToConfidence (matcherScan m features faces).minDistance)).2 ∧
      (tryBody m st inp).2.2 = false := by
  have hq := preamble_quiet (K := K) st inp.now
  have hr := fpsUpdate_records (K := K) st inp.now
  simp only [preamble, List.mem_append] at hq
  cases hd : inp.detection with
  | throws =>
    left
    simp only [tryBody, hd]
    refine ⟨hr, fun e he => hq e ?_⟩
    simp at he ⊢; tauto
  | ok preds =>
    cases preds with
    | nil =>
      left
      simp only [tryBody, hd]
      refine ⟨hr, fun e he => hq e ?_⟩
      simp at he ⊢; tauto
    | cons pred rest =>
      cases he : inp.extraction with
      | throws =>
        left
        simp only [tryBody, hd, he]
        refine ⟨hr, fun e he => hq e ?_⟩
        simp at he ⊢; tauto
      | ok feats =>
        cases feats with
        | none =>
          left
          simp only [tryBody, hd, he]
          refine ⟨hr, fun e he => hq e ?_⟩
          simp at he ⊢; tauto
        | some features =>
          cases hf : inp.registeredFaces with
          | throws =>
            left
            simp only [tryBody, hd, he, hf]
            refine ⟨hr, fun e he => hq e ?_⟩
            simp at he ⊢; tauto
          | ok faces =>
            right
            refine ⟨pred, rest, features, faces, rfl, rfl, rfl, ?_, ?_, ?_⟩
            · simp only [tryBody, hd, he, hf, hr]
            · simp only [tryBody, hd, he, hf, hr, preamble]
            · simp only [tryBody, hd, he, hf]

/-- The three outcomes of the decision. -/
theorem decision_cases (records : List AttendanceRecord) (checkTime dateTime idTime : Int)
    (prediction : Prediction K) (bestMatch : Option (Face K)) (confidence : JSNum K) :
    (∃ face, bestMatch = some face ∧ JSNum.ge confidence (fin 60) = true ∧
      JSNum.ge confidence (fin 75) = true ∧
      isRecentlyMarked records checkTime face.name = false ∧
      decision records checkTime dateTime idTime prediction bestMatch confidence =
        (markAttendance records dateTime idTime face.name,
          [Effect.drawFaceBox prediction face.name confidence, Effect.markAttendance face.name,
           Effect.showStatus face.name confidence, Effect.setTimeout 3000])) ∨
    (∃ face, bestMatch = some face ∧ JSNum.ge confidence (fin 60) = true ∧
      ¬ (JSNum.ge confidence (fin 75) = true ∧
        isRecentlyMarked records checkTime face.name = false) ∧
      decision records checkTime dateTime idTime prediction bestMatch confidence =
        (records, [Effect.drawFaceBox prediction face.name confidence])) ∨
    ((bestMatch = none ∨ JSNum.ge confidence (fin 60) = false) ∧
      decision records checkTime dateTime idTime prediction bestMatch confidence =
        (records, [Effect.drawFaceBox prediction "Unknown" confidence])) := by
  obtain ⟨hA, hB, hC⟩ :=
    decision_eq records checkTime dateTime idTime prediction bestMatch confidence
  cases hb : bestMatch with
  | none => exact Or.inr (Or.inr ⟨Or.inl rfl, hb ▸ hC (Or.inl hb)⟩)
  | some face =>
    cases h60 : JSNum.ge confidence (fin 60) with
    | false => exact Or.inr (Or.inr ⟨Or.inr rfl, hb ▸ hC (Or.inr h60)⟩)
    | true =>
      by_cases h : JSNum.ge confidence (fin 75) = true ∧
          isRecentlyMarked records checkTime face.name = false
      · exact Or.inl ⟨face, rfl, rfl, h.1, h.2, hb ▸ hA face hb h.1 h.2⟩
      · exact Or.inr (Or.inl ⟨face, rfl, rfl, h, hb ▸ hB face hb h60 h⟩)

theorem decision_quiet_or (records : List AttendanceRecord) (checkTime dateTime idTime : Int)
    (prediction : Prediction K) (bestMatch : Option (Face K)) (confidence : JSNum K) :
    ∀ e ∈ (decision records checkTime dateTime idTime prediction bestMatch confidence).2,
      e ≠ Effect.requestAnimationFrame ∧ e ≠ Effect.estimateFaces := by
  intro e he
  rcases decision_cases records checkTime dateTime idTime prediction bestMatch confidence with
    ⟨face, -, -, -, -, h⟩ | ⟨face, -, -, -, h⟩ | ⟨-, h⟩ <;> rw [h] at he <;> simp at he
  · rcases he with rfl | rfl | rfl | rfl <;> simp
  · subst he; simp
  · subst he; simp

theorem tryBody_no_reschedule (m : JSMath K) (st : LoopState) (inp : TickInput K) :
    Effect.requestAnimationFrame ∉ (tryBody m st inp).2.1 := by
  intro hmem
  rcases tryBody_spec m st inp with ⟨-, hq⟩ | ⟨pred, rest, features, faces, -, -, -, -, he, -⟩
  · exact (hq _ hmem).2.2 rfl
  · rw [he] at hmem
    rcases List.mem_append.mp hmem with h | h
    · exact (preamble_quiet st inp.now _ h).2.2 rfl
    · exact (decision_quiet_or _ _ _ _ _ _ _ _ h).1 rfl

theorem recognizeLoop_running (m : JSMath K) (st : LoopState) (inp : TickInput K)
    (h1 : inp.isRecognizing = true) (h2 : inp.videoReady = true) :
    recognizeLoop m st inp =
      ((tryBody m st inp).1,
        (tryBody m st inp).2.1 ++
          (if (tryBody m st inp).2.2 then [Effect.consoleError] else []) ++
          [Effect.requestAnimationFrame]) := by
  simp [recognizeLoop, h1, h2]

theorem recognizeLoop_not_running (m : JSMath K) (st : LoopState) (inp : TickInput K)
    (h : inp.isRecognizing = false ∨ inp.videoReady = false) :
    recognizeLoop m st inp =
      (st, if inp.isRecognizing then [Effect.requestAnimationFrame] else []) := by
  rcases h with h | h
  · simp [recognizeLoop, h]
  · cases hr : inp.isRecognizing <;> simp [recognizeLoop, h, hr]

/-- C10 (loop rescheduling).  A tick calls `requestAnimationFrame` once if
`isRecognizing` is true when it begins and not at all otherwise, whatever the
frame source, detection, extraction and the store do (not ready, no face, no
features, an exception).  When it reschedules, the call is the last effect of
the tick; a tick that begins stopped has no effect at all, so it makes no
detection call. -/
theorem recognizeLoop_reschedules_iff_running (m : JSMath K) (st : LoopState)
    (inp : TickInput K) :
    reschedules (recognizeLoop m st inp).2 = (if inp.isRecognizing then 1 else 0) ∧
    (inp.isRecognizing = true →
      (recognizeLoop m st inp).2.getLast? = some Effect.requestAnimationFrame) ∧
    (inp.isRecognizing = false →
      recognizeLoop m st inp = (st, []) ∧ detections (recognizeLoop m st inp).2 = 0) := by
  cases hr : inp.isRecognizing with
  | false =>
    have h := recognizeLoop_not_running m st inp (Or.inl hr)
    rw [hr] at h
    simp [h, reschedules, detections]
  | true =>
    cases hv : inp.videoReady with
    | false =>
      have h := recognizeLoop_not_running m st inp (Or.inr hv)
      rw [hr] at h
      simp [h, reschedules]
    | true =>
      rw [recognizeLoop_running m st inp hr hv]
      have h0 : List.count Effect.requestAnimationFrame (tryBody m st inp).2.1 = 0 :=
        List.count_eq_zero.mpr (tryBody_no_reschedule m st inp)
      refine ⟨?_, ?_, ?_⟩
      · simp only [reschedules, List.count_append, h0]
        split <;> simp
      · intro _
        simp
      · intro h; cases h

/-- What a tick does to the attendance log. -/
theorem recognizeLoop_records (m : JSMath K) (st : LoopState) (inp : TickInput K) :
    (recognizeLoop m st inp).1.attendanceRecords = st.attendanceRecords ∨
    ∃ name, isRecentlyMarked st.attendanceRecords inp.checkTime name = false ∧
      (recognizeLoop m st inp).1.attendanceRecords =
        markAttendance st.attendanceRecords inp.dateTime inp.idTime name := by
  by_cases hrun : inp.isRecognizing = true ∧ inp.videoReady = true
  · rw [recognizeLoop_running m st inp hrun.1 hrun.2]
    rcases tryBody_spec m st inp with ⟨hrec, -⟩ | ⟨pred, rest, features, faces, -, -, -, hrec, -, -⟩
    · exact Or.inl hrec
    · rcases decision_cases st.attendanceRecords inp.checkTime inp.dateTime inp.idTime pred
        (matcherScan m features faces).bestMatch
        (distanceToConfidence (matcherScan m features faces).minDistance) with
        ⟨face, -, -, -, hnr, h⟩ | ⟨face, -, -, -, h⟩ | ⟨-, h⟩
      · right
        refine ⟨face.name, hnr, ?_⟩
        show (tryBody m st inp).1.attendanceRecords = _
        rw [hrec, h]
      · left
        show (tryBody m st inp).1.attendanceRecords = _
        rw [hrec, h]
      · left
        show (tryBody m st inp).1.attendanceRecords = _
        rw [hrec, h]
  · left
    have h : inp.isRecognizing = false ∨ inp.videoReady = false := by
      cases h1 : inp.isRecognizing <;> cases h2 : inp.videoReady <;> simp_all
    rw [recognizeLoop_not_running m st inp h]

theorem apart_markAttendance (records : List AttendanceRecord) (checkTime dateTime idTime : Int)
    (name : String) (h : Apart records)
    (hnr : isRecentlyMarked records checkTime name = false) (hclock : checkTime ≤ dateTime) :
    Apart (markAttendance records dateTime idTime name) := by
  unfold Apart markAttendance
  rw [List.pairwise_cons]
  refine ⟨fun s hs hn => ?_, h⟩
  have := (isRecentlyMarked_eq_false_iff records checkTime name).mp hnr s hs hn.symm
  have h1 : (5000 : Int) ≤ dateTime - s.timestamp := by omega
  exact le_trans h1 (le_abs_self _)

theorem runTicks_apart (m : JSMath K) (inputs : List (TickInput K)) :
    ∀ st : LoopState, Apart st.attendanceRecords →
      (∀ inp ∈ inputs, inp.checkTime ≤ inp.dateTime) →
      Apart (runTicks m st inputs).attendanceRecords := by
  induction inputs with
  | nil => intro st h _; exact h
  | cons inp rest ih =>
    intro st h hclock
    show Apart (runTicks m (recognizeLoop m st inp).1 rest).attendanceRecords
    apply ih
    · rcases recognizeLoop_records m st inp with hr | ⟨name, hnr, hr⟩
      · rw [hr]; exact h
      · rw [hr]
        exact apart_markAttendance _ _ _ _ _ h hnr (hclock inp (List.mem_cons_self _ _))
    · exact fun i hi => hclock i (List.mem_cons_of_mem _ hi)

/-- C3 (marking is idempotent within the cooldown).  Starting from an empty
attendance log, after any sequence of ticks whose clock readings never
decrease, two records of the log with the same name have timestamps at least
5000 ms apart. -/
theorem marks_apart_within_cooldown (m : JSMath K) (st : LoopState)
    (inputs : List (TickInput K)) (hempty : st.attendanceRecords = [])
    (hclock : (inputs.flatMap TickInput.readings).Pairwise (fun a b => a ≤ b)) :
    (runTicks m st inputs).attendanceRecords.Pairwise
      (fun r s => r.name = s.name → 5000 ≤ |r.timestamp - s.timestamp|) := by
  apply runTicks_apart m inputs st
  · rw [hempty]; exact List.Pairwise.nil
  · intro inp hinp
    rw [List.pairwise_flatMap] at hclock
    have := hclock.1 inp hinp
    simp [TickInput.readings] at this
    exact this.2.1.1

/-! ## Decision policy -/

theorem surfaced_append (a b : List (Effect K)) : surfaced (a ++ b) = surfaced a ++ surfaced b := by
  simp [surfaced]

theorem marked_append (a b : List (Effect K)) : marked (a ++ b) = marked a ++ marked b := by
  simp [marked]

theorem surfaced_quiet (a : List (Effect K)) (h : ∀ e ∈ a, e.quiet) : surfaced a = [] := by
  simp only [surfaced, List.filterMap_eq_nil_iff]
  exact fun e he => (h e he).1

theorem marked_quiet (a : List (Effect K)) (h : ∀ e ∈ a, e.quiet) : marked a = [] := by
  simp only [marked, List.filterMap_eq_nil_iff]
  exact fun e he => (h e he).2.1

/-- The tick surfaces and marks exactly what the decision does at the outcome of the scan. -/
theorem recognizeLoop_decides (m : JSMath K) (st : LoopState) (inp : TickInput K)
    (pred : Prediction K) (rest : List (Prediction K)) (features : List (JSNum K))
    (faces : List (Face K))
    (hrun : inp.isRecognizing = true) (hready : inp.videoReady = true)
    (hdet : inp.detection = Outcome.ok (pred :: rest))
    (hext : inp.extraction = Outcome.ok (some features))
    (hfaces : inp.registeredFaces = Outcome.ok faces) :
    surfaced (recognizeLoop m st inp).2 =
      surfaced (decision st.attendanceRecords inp.checkTime inp.dateTime inp.idTime pred
        (matcherScan m features faces).bestMatch
        (distanceToConfidence (matcherScan m features faces).minDistance)).2 ∧
    marked (recognizeLoop m st inp).2 =
      marked (decision st.attendanceRecords inp.checkTime inp.dateTime inp.idTime pred
        (matcherScan m features faces).bestMatch
        (distanceToConfidence (matcherScan m features faces).minDistance)).2 ∧
    (recognizeLoop m st inp).1.attendanceRecords =
      (decision st.attendanceRecords inp.checkTime inp.dateTime inp.idTime pred
        (matcherScan m features faces).bestMatch
        (distanceToConfidence (matcherScan m features faces).minDistance)).1 := by
  rw [recognizeLoop_running m st inp hrun hready]
  have hpre := preamble_quiet (K := K) st inp.now
  simp only [tryBody, hdet, hext, hfaces, fpsUpdate_records, List.append_assoc]
  have hp : (fpsUpdate (K := K) st inp.now).2 ++
      [Effect.estimateFaces, Effect.clearCanvas, Effect.extractFaceFeatures] =
      preamble st inp.now := rfl
  rw [← List.append_assoc, hp]
  refine ⟨?_, ?_, trivial⟩
  · rw [surfaced_append, surfaced_append, surfaced_quiet _ hpre]
    simp [surfaced, Effect.label]
  · rw [marked_append, marked_append, marked_quiet _ hpre]
    simp [marked, Effect.mark]

/-- C4 (tick decision policy).  For every matcher outcome `bestMatch`,
`confidence` and every attendance log: the decision surfaces exactly one label,
the name of `bestMatch` with the confidence if `bestMatch` exists and
`confidence >= 60`, and `"Unknown"` with the same confidence otherwise; it calls
`markAttendance name` if and only if `bestMatch` exists with that name,
`confidence >= 75` and `isRecentlyMarked` is false; a mark comes with the label
of the same name, happens once and prepends the record, and without a mark the
log is unchanged.  A tick of `recognizeLoop` that detects a face, extracts a
probe and whose scan yields this outcome surfaces and marks exactly what the
decision does, and leaves the log the decision leaves. -/
theorem decision_policy (records : List AttendanceRecord) (checkTime dateTime idTime : Int)
    (prediction : Prediction K) (bestMatch : Option (Face K)) (confidence : JSNum K) :
    (∀ face, bestMatch = some face → JSNum.ge confidence (fin 60) = true →
      surfaced (decision records checkTime dateTime idTime prediction bestMatch confidence).2 =
        [(face.name, confidence)]) ∧
    ((bestMatch = none ∨ JSNum.ge confidence (fin 60) = false) →
      surfaced (decision records checkTime dateTime idTime prediction bestMatch confidence).2 =
        [("Unknown", confidence)]) ∧
    (∀ name,
      name ∈ marked (decision records checkTime dateTime idTime prediction bestMatch
        confidence).2 ↔
      ∃ face, bestMatch = some face ∧ face.name = name ∧
        JSNum.ge confidence (fin 75) = true ∧
        isRecentlyMarked records checkTime face.name = false) ∧
    (∀ name,
      name ∈ marked (decision records checkTime dateTime idTime prediction bestMatch
        confidence).2 →
      (name, confidence) ∈
        surfaced (decision records checkTime dateTime idTime prediction bestMatch confidence).2 ∧
      marked (decision records checkTime dateTime idTime prediction bestMatch confidence).2 =
        [name] ∧
      (decision records checkTime dateTime idTime prediction bestMatch confidence).1 =
        markAttendance records dateTime idTime name) ∧
    (marked (decision records checkTime dateTime idTime prediction bestMatch confidence).2 = [] →
      (decision records checkTime dateTime idTime prediction bestMatch confidence).1 =
        records) ∧
    (∀ (m : JSMath K) (st : LoopState) (inp : TickInput K) (rest : List (Prediction K))
      (features : List (JSNum K)) (faces : List (Face K)),
      inp.isRecognizing = true → inp.videoReady = true →
      inp.detection = Outcome.ok (prediction :: rest) →
      inp.extraction = Outcome.ok (some features) →
      inp.registeredFaces = Outcome.ok faces →
      (matcherScan m features faces).bestMatch = bestMatch →
      distanceToConfidence (matcherScan m features faces).minDistance = confidence →
      st.attendanceRecords = records →
      inp.checkTime = checkTime → inp.dateTime = dateTime → inp.idTime = idTime →
      surfaced (recognizeLoop m st inp).2 =
        surfaced (decision records checkTime dateTime idTime prediction bestMatch
          confidence).2 ∧
      marked (recognizeLoop m st inp).2 =
        marked (decision records checkTime dateTime idTime prediction bestMatch
          confidence).2 ∧
      (recognizeLoop m st inp).1.attendanceRecords =
        (decision records checkTime dateTime idTime prediction bestMatch confidence).1) := by
  have htick : ∀ (m : JSMath K) (st : LoopState) (inp : TickInput K)
      (rest : List (Prediction K)) (features : List (JSNum K)) (faces : List (Face K)),
      inp.isRecognizing = true → inp.videoReady = true →
      inp.detection = Outcome.ok (prediction :: rest) →
      inp.extraction = Outcome.ok (some features) →
      inp.registeredFaces = Outcome.ok faces →
      (matcherScan m features faces).bestMatch = bestMatch →
      distanceToConfidence (matcherScan m features faces).minDistance = confidence →
      st.attendanceRecords = records →
      inp.checkTime = checkTime → inp.dateTime = dateTime → inp.idTime = idTime →
      surfaced (recognizeLoop m st inp).2 =
        surfaced (decision records checkTime dateTime idTime prediction bestMatch
          confidence).2 ∧
      marked (recognizeLoop m st inp).2 =
        marked (decision records checkTime dateTime idTime prediction bestMatch
          confidence).2 ∧
      (recognizeLoop m st inp).1.attendanceRecords =
        (decision records checkTime dateTime idTime prediction bestMatch confidence).1 := by
    intro m st inp rest features faces hrun hready hdet hext hfaces hb hc hrec h1 h2 h3
    have h := recognizeLoop_decides m st inp prediction rest features faces hrun hready hdet
      hext hfaces
    rw [hb, hc, hrec, h1, h2, h3] at h
    exact h
  rcases decision_cases records checkTime dateTime idTime prediction bestMatch confidence with
    ⟨face, hb, h60, h75, hnr, h⟩ | ⟨face, hb, h60, hn, h⟩ | ⟨hc, h⟩
  · rw [h] at htick ⊢
    subst hb
    refine ⟨?_, ?_, ?_, ?_, ?_, htick⟩
    · intro f hf _
      cases hf
      simp [surfaced, Effect.label]
    · rintro (hnone | hlow)
      · cases hnone
      · rw [h60] at hlow; cases hlow
    · intro name
      simp only [marked, List.filterMap_cons, Effect.mark, List.filterMap_nil, List.mem_singleton]
      constructor
      · rintro rfl; exact ⟨face, rfl, rfl, h75, hnr⟩
      · rintro ⟨f, hf, hname, -, -⟩; cases hf; exact hname.symm
    · intro name hname
      simp only [marked, List.filterMap_cons, Effect.mark, List.filterMap_nil,
        List.mem_singleton] at hname
      subst hname
      simp [surfaced, marked, Effect.label, Effect.mark]
    · intro hnil
      simp [marked, Effect.mark] at hnil
  · rw [h] at htick ⊢
    subst hb
    refine ⟨?_, ?_, ?_, ?_, ?_, htick⟩
    · intro f hf _
      cases hf
      simp [surfaced, Effect.label]
    · rintro (hnone | hlow)
      · cases hnone
      · rw [h60] at hlow; cases hlow
    · intro name
      simp only [marked, List.filterMap_cons, Effect.mark, List.filterMap_nil, List.not_mem_nil,
        false_iff]
      rintro ⟨f, hf, -, h75, hnr⟩
      cases hf
      exact hn ⟨h75, hnr⟩
    · intro name hname
      simp [marked, Effect.mark] at hname
    · intro _; rfl
  · rw [h] at htick ⊢
    refine ⟨?_, ?_, ?_, ?_, ?_, htick⟩
    · intro f hf h60
      rcases hc with hnone | hlow
      · rw [hnone] at hf; cases hf
      · rw [h60] at hlow; cases hlow
    · intro _
      simp [surfaced, Effect.label]
    · intro name
      simp only [marked, List.filterMap_cons, Effect.mark, List.filterMap_nil, List.not_mem_nil,
        false_iff]
      rintro ⟨f, hf, -, h75, -⟩
      rcases hc with hnone | hlow
      · rw [hnone] at hf; cases hf
      · rw [ge_sixty_of_ge_seventyfive h75] at hlow; cases hlow
    · intro name hname
      simp [marked, Effect.mark] at hname
    · intro _; rfl

/-! ## Enrolment: lemmas and theorems -/

theorem map_set_same {α β : Type} (f : α → β) (l : List α) (k : Nat) (x y : α)
    (hk : l[k]? = some y) (hxy : f x = f y) : (l.set k x).map f = l.map f := by
  induction l generalizing k with
  | nil => simp
  | cons a as ih =>
    cases k with
    | zero =>
      simp at hk; subst hk
      simp [hxy]
    | succ k =>
      simp at hk
      simp [ih k hk]

/-- In a store with pairwise distinct keys, a key occurs at one index only. -/
theorem index_unique {α β : Type} (f : α → β) (l : List α)
    (hd : l.Pairwise (fun a b => f a ≠ f b)) (i j : Nat) (p q : α)
    (hi : l[i]? = some p) (hj : l[j]? = some q) (hpq : f p = f q) : i = j := by
  rw [List.pairwise_iff_getElem] at hd
  obtain ⟨hil, rfl⟩ := List.getElem?_eq_some_iff.mp hi
  obtain ⟨hjl, rfl⟩ := List.getElem?_eq_some_iff.mp hj
  rcases Nat.lt_trichotomy i j with h | h | h
  · exact absurd hpq (hd i j hil hjl h)
  · exact h
  · exact absurd hpq.symm (hd j i hjl hil h)

theorem captureFace_saves (toLowerCase : String → String) (store : List (Face K))
    (inp : CaptureInput K) (pred : Prediction K) (rest : List (Prediction K))
    (features : List (JSNum K))
    (hloaded : inp.modelsLoaded = true) (hname : inp.name ≠ "") (hready : inp.videoReady = true)
    (hdet : inp.detection = Outcome.ok (pred :: rest))
    (hext : inp.extraction = Outcome.ok (some features)) :
    captureFace toLowerCase store inp =
      saveFace toLowerCase store
        { name := inp.name, features := some features, timestamp := inp.now } := by
  simp [captureFace, hloaded, hname, hready, hdet, hext]

/-- C9 (case-insensitive re-enrolment).  When `captureFace` reaches the store
(models loaded, non-empty name, camera ready, a face detected, features
extracted) and the stored names are pairwise distinct ignoring case: if a
profile at index `i` has the new name ignoring case, the updated store has the
same length, holds the new profile at `i` and is unchanged elsewhere; if no
profile has it, the new profile is appended; and the names of the updated store
are again pairwise distinct ignoring case. -/
theorem captureFace_case_insensitive (toLowerCase : String → String) (store : List (Face K))
    (inp : CaptureInput K) (pred : Prediction K) (rest : List (Prediction K))
    (features : List (JSNum K))
    (hloaded : inp.modelsLoaded = true) (hname : inp.name ≠ "") (hready : inp.videoReady = true)
    (hdet : inp.detection = Outcome.ok (pred :: rest))
    (hext : inp.extraction = Outcome.ok (some features))
    (hdistinct : store.Pairwise (fun a b => toLowerCase a.name ≠ toLowerCase b.name)) :
    (∀ (i : Nat) (p : Face K), store[i]? = some p →
      toLowerCase p.name = toLowerCase inp.name →
      (captureFace toLowerCase store inp).length = store.length ∧
      (captureFace toLowerCase store inp)[i]? =
        some { name := inp.name, features := some features, timestamp := inp.now } ∧
      ∀ j : Nat, j ≠ i → (captureFace toLowerCase store inp)[j]? = store[j]?) ∧
    ((∀ p ∈ store, toLowerCase p.name ≠ toLowerCase inp.name) →
      captureFace toLowerCase store inp =
        store ++ [{ name := inp.name, features := some features, timestamp := inp.now }]) ∧
    (captureFace toLowerCase store inp).Pairwise
      (fun a b => toLowerCase a.name ≠ toLowerCase b.name) := by
  rw [captureFace_saves toLowerCase store inp pred rest features hloaded hname hready hdet hext]
  unfold saveFace
  cases hfind : store.findIdx?
      (fun f => toLowerCase f.name == toLowerCase inp.name) with
  | none =>
    have hnone : ∀ x ∈ store, toLowerCase x.name ≠ toLowerCase inp.name := by
      intro x hx
      have := (List.findIdx?_eq_none_iff.mp hfind) x hx
      simpa using this
    refine ⟨?_, fun _ => rfl, ?_⟩
    · intro i p hip hp
      exact absurd hp (hnone p (List.getElem?_mem hip))
    · show (store ++ [_]).Pairwise _
      rw [List.pairwise_append]
      refine ⟨hdistinct, List.pairwise_singleton _ _, ?_⟩
      intro a ha b hb
      simp at hb; subst hb
      exact hnone a ha
  | some k =>
    obtain ⟨hk, hpk, -⟩ := List.findIdx?_eq_some_iff_getElem.mp hfind
    have hpk' : toLowerCase store[k].name = toLowerCase inp.name := by simpa using hpk
    have hkget : store[k]? = some store[k] := List.getElem?_eq_getElem hk
    refine ⟨?_, ?_, ?_⟩
    · intro i p hip hp
      have hik : i = k :=
        index_unique (fun a : Face K => toLowerCase a.name) store hdistinct i k p store[k]
          hip hkget (hp.trans hpk'.symm)
      subst hik
      refine ⟨List.length_set _ _ _, ?_, ?_⟩
      · show (store.set i _)[i]? = _
        exact List.getElem?_set_self hk
      · intro j hj
        show (store.set i _)[j]? = _
        exact List.getElem?_set_ne (Ne.symm hj)
    · intro hnone
      exact absurd hpk' (hnone _ (List.getElem_mem hk))
    · show (store.set k _).Pairwise _
      have hmap := map_set_same (fun a : Face K => toLowerCase a.name) store k
        { name := inp.name, features := some features, timestamp := inp.now } store[k] hkget
        hpk'.symm
      have h1 : (store.map (fun a : Face K => toLowerCase a.name)).Pairwise (fun a b => a ≠ b) :=
        List.pairwise_map.mpr hdistinct
      rw [← hmap] at h1
      exact List.pairwise_map.mp h1

/-! ## Worked examples -/

theorem ratSqrt_2500 : ratSqrt 2500 = 50 := by
  simp [ratSqrt]
  norm_num [Nat.sqrt]

theorem ratSqrt_9 : ratSqrt 9 = 3 := by
  simp [ratSqrt]
  norm_num [Nat.sqrt]

theorem ratSqrt_1 : ratSqrt 1 = 1 := by
  simp [ratSqrt]

theorem overflowRound_exact (x : ℚ) (h1 : x < 2 ^ 1024) (h2 : -(2 ^ 1024) < x) :
    overflowRound x = fin x := by
  simp [overflowRound, not_le.mpr h1, not_le.mpr h2]

theorem overflowRound_overflow (x : ℚ) (h : 2 ^ 1024 ≤ x) : overflowRound x = posInf := by
  simp [overflowRound, h]

/-- The distance between two one-coordinate vectors when nothing overflows. -/
theorem distance_single (a b : ℚ) (h1 : a - b < 2 ^ 1024) (h2 : -(2 ^ 1024) < a - b)
    (h3 : (a - b) ^ 2 < 2 ^ 1024) :
    calculateDistance exampleMath (some [fin a]) (some [fin b]) =
      fin (ratSqrt ((a - b) ^ 2)) := by
  have hsq : (0 : ℚ) ≤ (a - b) ^ 2 := sq_nonneg _
  have h4 : -(2 ^ 1024 : ℚ) < (a - b) ^ 2 := lt_of_lt_of_le (by norm_num) hsq
  have h5 : (0 : ℚ) + (a - b) ^ 2 = (a - b) ^ 2 := zero_add _
  simp only [calculateDistance, List.length_cons, List.length_nil, ne_eq, not_true_eq_false,
    if_false, sumSquares, JSMath.sub, JSMath.add, JSMath.pow2, JSMath.rounded, JSNum.sub,
    JSNum.add, exampleMath, overflowRound_exact _ h1 h2, overflowRound_exact _ h3 h4, h5,
    JSMath.sqrtNum, not_lt.mpr hsq]

theorem distance_50_0 :
    calculateDistance exampleMath (some [fin 50]) (some [fin 0]) = fin 50 := by
  rw [distance_single 50 0 (by norm_num) (by norm_num) (by norm_num)]
  norm_num [ratSqrt_2500]

theorem distance_0_3 :
    calculateDistance exampleMath (some [fin 0]) (some [fin 3]) = fin 3 := by
  rw [distance_single 0 3 (by norm_num) (by norm_num) (by norm_num)]
  norm_num [ratSqrt_9]

theorem distance_0_1 :
    calculateDistance exampleMath (some [fin 0]) (some [fin 1]) = fin 1 := by
  rw [distance_single 0 1 (by norm_num) (by norm_num) (by norm_num)]
  norm_num [ratSqrt_1]

theorem distance_0_neg1 :
    calculateDistance exampleMath (some [fin 0]) (some [fin (-1)]) = fin 1 := by
  rw [distance_single 0 (-1) (by norm_num) (by norm_num) (by norm_num)]
  norm_num [ratSqrt_1]

/-- The square of `2 ^ 700` overflows, so the distance is `Infinity`. -/
theorem distance_huge :
    calculateDistance exampleMath (some hugeProbe) (some [fin 0]) = posInf := by
  have h1 : overflowRound (2 ^ 700 - 0) = fin (2 ^ 700 - 0) :=
    overflowRound_exact _ (by norm_num) (by norm_num)
  have h2 : overflowRound ((2 ^ 700 - 0) ^ 2) = posInf :=
    overflowRound_overflow _ (by norm_num)
  simp only [calculateDistance, hugeProbe, List.length_cons, List.length_nil, ne_eq,
    not_true_eq_false, if_false, sumSquares, JSMath.sub, JSMath.add, JSMath.pow2,
    JSMath.rounded, JSNum.sub, JSNum.add, exampleMath, h1, h2, JSMath.sqrtNum]

/-- A NaN coordinate in the probe makes the distance NaN. -/
theorem distance_nan :
    calculateDistance exampleMath (some [nan]) (some [fin 0]) = nan := by
  simp only [calculateDistance, List.length_cons, List.length_nil, ne_eq, not_true_eq_false,
    if_false, sumSquares, JSMath.sub, JSMath.add, JSMath.pow2, JSMath.rounded, JSNum.sub,
    JSNum.add, JSMath.sqrtNum]

theorem scan_alice :
    matcherScan exampleMath [fin 50] [alice] =
      { bestMatch := some alice, minDistance := fin 50 } := by
  have hd : calculateDistance exampleMath (some [fin 50]) alice.features = fin 50 :=
    distance_50_0
  simp [matcherScan, scanFrom, scanStep, hd, JSNum.lt]

theorem scan_threeFaces :
    matcherScan exampleMath [fin 0] threeFaces =
      { bestMatch := some { name := "B", features := some [fin 1], timestamp := 0 },
        minDistance := fin 1 } := by
  simp [matcherScan, scanFrom, scanStep, threeFaces, distance_0_3, distance_0_1,
    distance_0_neg1, JSNum.lt]

theorem scan_huge :
    matcherScan exampleMath hugeProbe [alice] = { bestMatch := none, minDistance := posInf } := by
  have hd : calculateDistance exampleMath (some hugeProbe) alice.features = posInf :=
    distance_huge
  simp [matcherScan, scanFrom, scanStep, hd, JSNum.lt]

theorem conf_50 : distanceToConfidence (fin (50 : ℚ)) = fin 90 := by
  rw [distanceToConfidence_fin]
  have h : clamped (50 : ℚ) = 90 := by norm_num [clamped]
  rw [h]
  congr 1
  have : (⌊(90 : ℚ) + 1 / 2⌋ : ℤ) = 90 := by
    rw [Int.floor_eq_iff]; norm_num
  rw [this]; rfl

theorem ge_90_60 : JSNum.ge (fin (90 : ℚ)) (fin 60) = true := by
  norm_num [JSNum.ge, JSNum.le]

theorem ge_90_75 : JSNum.ge (fin (90 : ℚ)) (fin 75) = true := by
  norm_num [JSNum.ge, JSNum.le]

theorem first_tick : (recognizeLoop exampleMath startState (tickAt 1000)).1.attendanceRecords =
    [{ id := 1000, name := "Alice", timestamp := 1000 }] := by
  rw [(recognizeLoop_decides exampleMath startState (tickAt 1000) box [] [fin 50] [alice]
    rfl rfl rfl rfl rfl).2.2, scan_alice, conf_50]
  rw [(decision_eq startState.attendanceRecords (tickAt 1000).checkTime (tickAt 1000).dateTime
    (tickAt 1000).idTime box (some alice) (fin 90)).1 alice rfl ge_90_75 rfl]
  rfl

theorem second_tick (st : LoopState)
    (h : st.attendanceRecords = [{ id := 1000, name := "Alice", timestamp := 1000 }]) :
    (recognizeLoop exampleMath st (tickAt 3000)).1.attendanceRecords =
      [{ id := 1000, name := "Alice", timestamp := 1000 }] := by
  rw [(recognizeLoop_decides exampleMath st (tickAt 3000) box [] [fin 50] [alice]
    rfl rfl rfl rfl rfl).2.2, scan_alice, conf_50, h]
  have hrecent : isRecentlyMarked [{ id := 1000, name := "Alice", timestamp := 1000 }]
      (tickAt 3000).checkTime alice.name = true := by
    rw [isRecentlyMarked_eq_true_iff]
    exact ⟨_, List.mem_cons_self _ _, rfl, by show (3000 : Int) - 5000 < 1000; omega⟩
  rw [(decision_eq _ (tickAt 3000).checkTime (tickAt 3000).dateTime
    (tickAt 3000).idTime box (some alice) (fin 90)).2.1 alice rfl ge_90_60
    (by rw [hrecent]; simp)]

theorem two_ticks : (runTicks exampleMath startState [tickAt 1000, tickAt 3000]).attendanceRecords =
    [{ id := 1000, name := "Alice", timestamp := 1000 }] :=
  second_tick _ first_tick

/-- C1, witness: three profiles at distances 3, 1, 1 from the probe; the scan
returns "B", the earlier of the two tied at the minimum. -/
theorem matcherScan_first_minimum_witness :
    threeFaces ≠ [] ∧
    (∀ p ∈ threeFaces, ∃ x, calculateDistance exampleMath (some [fin 0]) p.features = fin x) ∧
    (matcherScan exampleMath [fin 0] threeFaces).bestMatch =
      some { name := "B", features := some [fin 1], timestamp := 0 } ∧
    (matcherScan exampleMath [fin 0] threeFaces).minDistance = fin 1 ∧
    (∀ p ∈ threeFaces, ∃ f, p.features = some f ∧ f.length = [fin (0 : ℚ)].length) ∧
    ∃ (i : Nat) (p : Face ℚ), threeFaces[i]? = some p ∧
      (matcherScan exampleMath [fin 0] threeFaces).bestMatch = some p ∧
      (matcherScan exampleMath [fin 0] threeFaces).minDistance =
        calculateDistance exampleMath (some [fin 0]) p.features ∧
      (∀ (j : Nat) (q : Face ℚ), threeFaces[j]? = some q →
        JSNum.le (calculateDistance exampleMath (some [fin 0]) p.features)
          (calculateDistance exampleMath (some [fin 0]) q.features) = true) ∧
      (∀ (j : Nat) (q : Face ℚ), threeFaces[j]? = some q → j < i →
        JSNum.lt (calculateDistance exampleMath (some [fin 0]) p.features)
          (calculateDistance exampleMath (some [fin 0]) q.features) = true) :=
  have hfin : ∀ p ∈ threeFaces,
      ∃ x, calculateDistance exampleMath (some [fin 0]) p.features = fin x := by
    simp [threeFaces, distance_0_3, distance_0_1, distance_0_neg1]
  ⟨by simp [threeFaces], hfin, by rw [scan_threeFaces], by rw [scan_threeFaces],
    matcherScan_first_minimum exampleMath [fin 0] threeFaces (by simp [threeFaces]) hfin⟩

/-- C1, counterexample.  The probe `[2 ^ 700]` and the enrolled fingerprint `[0]`
have the same length, yet the squared difference overflows, the distance is
`Infinity` and the scan selects no profile. -/
theorem matcherScan_equal_length_overflow :
    [alice] ≠ [] ∧
    (∀ p ∈ [alice], ∃ f, p.features = some f ∧ f.length = hugeProbe.length) ∧
    calculateDistance exampleMath (some hugeProbe) alice.features = posInf ∧
    ¬ ∃ (i : Nat) (p : Face ℚ), [alice][i]? = some p ∧
      (matcherScan exampleMath hugeProbe [alice]).bestMatch = some p := by
  refine ⟨by simp, by simp [alice, hugeProbe], distance_huge, ?_⟩
  rw [scan_huge]
  simp

/-- C5, witness: distance 50 gives confidence 90 under both formulas. -/
theorem distanceToConfidence_eq_specConfidence_witness :
    (fin (50 : ℚ) ≠ nan) ∧ distanceToConfidence (fin (50 : ℚ)) = fin 90 ∧
    specConfidence (fin (50 : ℚ)) = fin 90 ∧
    ∃ n : ℤ, distanceToConfidence (fin (50 : ℚ)) = fin (n : ℚ) :=
  ⟨by simp, conf_50,
    (distanceToConfidence_eq_specConfidence (fin (50 : ℚ))).1 ▸ conf_50,
    (distanceToConfidence_eq_specConfidence (fin (50 : ℚ))).2 (by simp)⟩

/-- C6, witness: vectors of lengths 2 and 1. -/
theorem calculateDistance_fails_closed_witness :
    ((some [fin 1, fin 2] : Option (List (JSNum ℚ))) = none ∨ (some [fin 1] : Option (List (JSNum ℚ))) = none ∨
      ∃ x y, (some [fin 1, fin 2] : Option (List (JSNum ℚ))) = some x ∧ (some [fin 1] : Option (List (JSNum ℚ))) = some y ∧
        x.length ≠ y.length) ∧
    calculateDistance exampleMath (some [fin 1, fin 2]) (some [fin 1]) = posInf ∧
    distanceToConfidence (calculateDistance exampleMath (some [fin 1, fin 2]) (some [fin 1])) = fin 0 :=
  ⟨Or.inr (Or.inr ⟨[fin 1, fin 2], [fin 1], rfl, rfl, by decide⟩),
    calculateDistance_fails_closed exampleMath (some [fin 1, fin 2]) (some [fin 1])
      (Or.inr (Or.inr ⟨[fin 1, fin 2], [fin 1], rfl, rfl, by decide⟩))⟩

/-- C7, witness: distances 50 and 100. -/
theorem distanceToConfidence_antitone_bounded_witness :
    JSNum.le (fin (50 : ℚ)) (fin 100) = true ∧ (fin (50 : ℚ) ≠ nan) ∧
    JSNum.ge (distanceToConfidence (fin (50 : ℚ))) (distanceToConfidence (fin 100)) = true ∧
    JSNum.le (fin 0) (distanceToConfidence (fin (50 : ℚ))) = true ∧
    JSNum.le (distanceToConfidence (fin (50 : ℚ))) (fin 100) = true :=
  ⟨by norm_num [JSNum.le], by simp,
    (distanceToConfidence_antitone_bounded (fin (50 : ℚ)) (fin 100)).1 (by norm_num [JSNum.le]),
    (distanceToConfidence_antitone_bounded (fin (50 : ℚ)) (fin 100)).2 (by simp)⟩

/-- C8, witness: a store whose only fingerprint is longer than the probe yields
no candidate and confidence 0; a fingerprint of the probe's length at distance
`Infinity` (overflow) or NaN (a NaN coordinate) yields none either; the three
profiles at distances 3, 1, 1 yield "B", whose
fingerprint has the probe's length. -/
theorem matcherScan_none_iff_witness :
    (∀ p ∈ [longFace], p.features = none ∨
      ∃ f, p.features = some f ∧ f.length ≠ [fin (0 : ℚ)].length) ∧
    (matcherScan exampleMath [fin 0] [longFace]).bestMatch = none ∧
    distanceToConfidence (matcherScan exampleMath [fin 0] [longFace]).minDistance = fin 0 ∧
    (∀ p ∈ [alice],
      JSNum.lt (calculateDistance exampleMath (some hugeProbe) p.features) posInf = false) ∧
    (matcherScan exampleMath hugeProbe [alice]).bestMatch = none ∧
    (∀ p ∈ [alice],
      JSNum.lt (calculateDistance exampleMath (some [nan]) p.features) posInf = false) ∧
    (matcherScan exampleMath [nan] [alice]).bestMatch = none ∧
    (matcherScan exampleMath [fin 0] threeFaces).bestMatch =
      some { name := "B", features := some [fin 1], timestamp := 0 } ∧
    (∃ f, (some [fin (1 : ℚ)] : Option (List (JSNum ℚ))) = some f ∧
      f.length = [fin (0 : ℚ)].length) ∧
    (matcherScan exampleMath [fin 0] threeFaces).minDistance = fin 1 :=
  have hlong : ∀ p ∈ [longFace], p.features = none ∨
      ∃ f, p.features = some f ∧ f.length ≠ [fin (0 : ℚ)].length := by
    simp [longFace]
  have hnone := (matcherScan_none_iff exampleMath [fin 0] [longFace]).2.2.1 hlong
  have hhuge : ∀ p ∈ [alice],
      JSNum.lt (calculateDistance exampleMath (some hugeProbe) p.features) posInf = false := by
    simp [distance_huge, alice, JSNum.lt]
  have hnan : ∀ p ∈ [alice],
      JSNum.lt (calculateDistance exampleMath (some [nan]) p.features) posInf = false := by
    simp [distance_nan, alice, JSNum.lt]
  have hsome := (matcherScan_none_iff exampleMath [fin 0] threeFaces).2.2.2.2
    { name := "B", features := some [fin 1], timestamp := 0 } (by rw [scan_threeFaces])
  ⟨hlong, hnone, ((matcherScan_none_iff exampleMath [fin 0] [longFace]).2.1 hnone).2,
    hhuge, (matcherScan_none_iff exampleMath hugeProbe [alice]).1.mpr hhuge,
    hnan, (matcherScan_none_iff exampleMath [nan] [alice]).1.mpr hnan,
    by rw [scan_threeFaces], hsome.2.1, hsome.2.2.2.trans distance_0_1⟩

/-- C3, witness: a probe at confidence 90 marks on the first tick, at 1000; a
second tick 2000 ms later with the same probe appends no record. -/
theorem marks_apart_within_cooldown_witness :
    startState.attendanceRecords = [] ∧
    ([tickAt 1000, tickAt 3000].flatMap TickInput.readings).Pairwise (fun a b => a ≤ b) ∧
    distanceToConfidence (matcherScan exampleMath [fin 50] [alice]).minDistance = fin 90 ∧
    (recognizeLoop exampleMath startState (tickAt 1000)).1.attendanceRecords =
      [{ id := 1000, name := "Alice", timestamp := 1000 }] ∧
    (runTicks exampleMath startState [tickAt 1000, tickAt 3000]).attendanceRecords =
      [{ id := 1000, name := "Alice", timestamp := 1000 }] ∧
    (runTicks exampleMath startState [tickAt 1000, tickAt 3000]).attendanceRecords.Pairwise
      (fun r s => r.name = s.name → 5000 ≤ |r.timestamp - s.timestamp|) :=
  ⟨rfl, by simp [tickAt, TickInput.readings], by rw [scan_alice]; exact conf_50, first_tick,
    two_ticks,
    marks_apart_within_cooldown exampleMath startState [tickAt 1000, tickAt 3000] rfl
      (by simp [tickAt, TickInput.readings])⟩

/-- C4, witness: at confidence 90 with an empty log "Alice" is surfaced and
marked, by the decision and by the tick that reaches it; with a mark 2000 ms
old she is not marked; without a candidate the label is "Unknown". -/
theorem decision_policy_witness :
    JSNum.ge (fin (90 : ℚ)) (fin 60) = true ∧
    surfaced (decision [] 1000 1000 1000 box (some alice) (fin 90)).2 = [("Alice", fin 90)] ∧
    ((none : Option (Face ℚ)) = none ∨ JSNum.ge (fin (90 : ℚ)) (fin 60) = false) ∧
    surfaced (decision [] 1000 1000 1000 box none (fin 90)).2 = [("Unknown", fin 90)] ∧
    "Alice" ∈ marked (decision [] 1000 1000 1000 box (some alice) (fin 90)).2 ∧
    (decision [] 1000 1000 1000 box (some alice) (fin 90)).1 =
      markAttendance [] 1000 1000 "Alice" ∧
    marked (decision [{ id := 1000, name := "Alice", timestamp := 1000 }] 3000 3000 3000 box
      (some alice) (fin 90)).2 = [] ∧
    (decision [{ id := 1000, name := "Alice", timestamp := 1000 }] 3000 3000 3000 box
      (some alice) (fin 90)).1 = [{ id := 1000, name := "Alice", timestamp := 1000 }] ∧
    surfaced (recognizeLoop exampleMath startState (tickAt 1000)).2 = [("Alice", fin 90)] ∧
    marked (recognizeLoop exampleMath startState (tickAt 1000)).2 = ["Alice"] :=
  have h60 : JSNum.ge (fin (90 : ℚ)) (fin 60) = true := ge_90_60
  have h75 : JSNum.ge (fin (90 : ℚ)) (fin 75) = true := ge_90_75
  have hm : "Alice" ∈ marked (decision [] 1000 1000 1000 box (some alice) (fin 90)).2 :=
    ((decision_policy [] 1000 1000 1000 box (some alice) (fin 90)).2.2.1 "Alice").mpr
      ⟨alice, rfl, rfl, h75, rfl⟩
  have hnil : marked (decision [{ id := 1000, name := "Alice", timestamp := 1000 }] 3000 3000
      3000 box (some alice) (fin 90)).2 = [] := by
    simp [decision, h60, h75, isRecentlyMarked, alice, marked, Effect.mark]
  have htick := (decision_policy [] 1000 1000 1000 box (some alice) (fin 90)).2.2.2.2.2
    exampleMath startState (tickAt 1000) [] [fin 50] [alice] rfl rfl rfl rfl rfl
    (by rw [scan_alice]) (by rw [scan_alice]; exact conf_50) rfl rfl rfl rfl
  ⟨h60, (decision_policy [] 1000 1000 1000 box (some alice) (fin 90)).1 alice rfl h60,
    Or.inl rfl, (decision_policy [] 1000 1000 1000 box none (fin 90)).2.1 (Or.inl rfl),
    hm, ((decision_policy [] 1000 1000 1000 box (some alice) (fin 90)).2.2.2.1 "Alice" hm).2.2,
    hnil,
    (decision_policy [{ id := 1000, name := "Alice", timestamp := 1000 }] 3000 3000 3000 box
      (some alice) (fin 90)).2.2.2.2.1 hnil,
    (htick.1).trans
      ((decision_policy [] 1000 1000 1000 box (some alice) (fin 90)).1 alice rfl h60),
    (htick.2.1).trans
      ((decision_policy [] 1000 1000 1000 box (some alice) (fin 90)).2.2.2.1 "Alice" hm).2.1⟩

/-- C9, witness: enrolling "alice" in a store that holds "Alice" leaves one
profile, the new one. -/
theorem captureFace_case_insensitive_witness :
    aliceAgain.modelsLoaded = true ∧ aliceAgain.name ≠ "" ∧ aliceAgain.videoReady = true ∧
    aliceAgain.detection = Outcome.ok [box] ∧
    aliceAgain.extraction = Outcome.ok (some [fin 1]) ∧
    [alice].Pairwise (fun a b => asciiLower a.name ≠ asciiLower b.name) ∧
    asciiLower alice.name = asciiLower aliceAgain.name ∧
    (captureFace asciiLower [alice] aliceAgain).length = [alice].length ∧
    (captureFace asciiLower [alice] aliceAgain)[0]? =
      some { name := "alice", features := some [fin 1], timestamp := 5 } ∧
    (captureFace asciiLower [alice] aliceAgain).Pairwise
      (fun a b => asciiLower a.name ≠ asciiLower b.name) :=
  have hlow : asciiLower alice.name = asciiLower aliceAgain.name := by decide
  ⟨rfl, by decide, rfl, rfl, rfl, List.pairwise_singleton _ _, hlow,
    ((captureFace_case_insensitive asciiLower [alice] aliceAgain box [] [fin 1] rfl (by decide) rfl
      rfl rfl (List.pairwise_singleton _ _)).1 0 alice rfl hlow).1,
    ((captureFace_case_insensitive asciiLower [alice] aliceAgain box [] [fin 1] rfl (by decide) rfl
      rfl rfl (List.pairwise_singleton _ _)).1 0 alice rfl hlow).2.1,
    (captureFace_case_insensitive asciiLower [alice] aliceAgain box [] [fin 1] rfl (by decide) rfl
      rfl rfl (List.pairwise_singleton _ _)).2.2⟩

/-- C10, witness: a running tick reschedules once, as its last effect; a tick
that begins stopped does nothing; a running tick whose detection call throws
logs the error and reschedules once. -/
theorem recognizeLoop_reschedules_iff_running_witness :
    (tickAt 1000).isRecognizing = true ∧ idleTick.isRecognizing = false ∧
    (recognizeLoop exampleMath startState (tickAt 1000)).2.getLast? =
      some Effect.requestAnimationFrame ∧
    reschedules (recognizeLoop exampleMath startState (tickAt 1000)).2 = 1 ∧
    recognizeLoop exampleMath startState idleTick = (startState, []) ∧
    detections (recognizeLoop exampleMath startState idleTick).2 = 0 ∧
    (recognizeLoop exampleMath startState throwingTick).2 =
      [Effect.fpsDisplay 1, Effect.estimateFaces, Effect.consoleError,
        Effect.requestAnimationFrame] ∧
    reschedules (recognizeLoop exampleMath startState throwingTick).2 = 1 :=
  ⟨rfl, rfl,
    (recognizeLoop_reschedules_iff_running exampleMath startState (tickAt 1000)).2.1 rfl,
    (recognizeLoop_reschedules_iff_running exampleMath startState (tickAt 1000)).1,
    ((recognizeLoop_reschedules_iff_running exampleMath startState idleTick).2.2 rfl).1,
    ((recognizeLoop_reschedules_iff_running exampleMath startState idleTick).2.2 rfl).2,
    by simp [recognizeLoop, tryBody, fpsUpdate, throwingTick, tickAt, startState],
    (recognizeLoop_reschedules_iff_running exampleMath startState throwingTick).1⟩

end FaceRecognition
